import Mathlib

/-!
Shallow embedding of the tick-to-signal strategy engine of `trade.one`.

Two near-duplicate engine variants exist in the source:
`fixed_groww_trader.py` (namespace `Fixed` below) and
`optimized_groww_trader.py` (namespace `Optimized` below).  Both are
embedded faithfully, field by field and branch by branch.

Modelling conventions:
* Python floats are modelled as rationals (`ℚ`); the range bounds
  `first15_high` / `first15_low`, which the source initialises to `0.0`
  and `float('inf')`, are modelled as `WithTop ℚ` with `⊤` for infinity.
* `datetime` values are modelled by the `Ts` structure (day/hour/minute/
  second); `timestamp.replace(second=0, microsecond=0)` is `Ts.truncMinute`,
  `timestamp.time()` comparisons use `Ts.timeOfDaySec`, and
  `(a - b).seconds` of a Python `timedelta` is `tdSeconds a b`
  (the Euclidean remainder mod 86400, matching Python's normalisation).
* Calls to `datetime.now(IST)` during tick processing are modelled by an
  explicit `now : Ts` argument; `runTicks` instantiates it with the tick's
  timestamp.
* Telegram notifications and logging are pure output and are dropped; the
  emitted trade signal of `_generate_signal` is returned as a `Signal`.
-/

namespace TradeOne

/-- A wall-clock instant: day index plus hour/minute/second of day. -/
structure Ts where
  day : ℕ
  hour : ℕ
  minute : ℕ
  second : ℕ
deriving DecidableEq, Repr

/-- Seconds since the (arbitrary) epoch of day 0. -/
def Ts.toSec (t : Ts) : ℕ :=
  ((t.day * 24 + t.hour) * 60 + t.minute) * 60 + t.second

/-- Seconds since midnight, used for `timestamp.time()` comparisons. -/
def Ts.timeOfDaySec (t : Ts) : ℕ :=
  (t.hour * 60 + t.minute) * 60 + t.second

/-- `timestamp.replace(second=0, microsecond=0)`: the minute bucket. -/
def Ts.truncMinute (t : Ts) : Ts :=
  { t with second := 0 }

/-- A timestamp with in-range hour/minute/second fields. -/
def Ts.Valid (t : Ts) : Prop :=
  t.hour < 24 ∧ t.minute < 60 ∧ t.second < 60

instance (t : Ts) : Decidable t.Valid := by
  unfold Ts.Valid; infer_instance

/-- `.seconds` of the Python `timedelta` `a - b`: Python normalises a
timedelta to days plus a seconds value in `[0, 86400)`, so the attribute
is the Euclidean remainder of the total difference modulo 86400. -/
def tdSeconds (a b : Ts) : ℤ :=
  ((a.toSec : ℤ) - (b.toSec : ℤ)) % 86400

/-- A one-minute OHLC candle, as held in `self.candle_data`. -/
structure Candle where
  timestamp : Ts
  open_ : ℚ
  high : ℚ
  low : ℚ
  close : ℚ
  volume : ℕ
deriving DecidableEq, Repr

/-- `last_candle['close'] > last_candle['open']`. -/
def Candle.isGreen (c : Candle) : Prop := c.open_ < c.close

/-- `last_candle['close'] < last_candle['open']`. -/
def Candle.isRed (c : Candle) : Prop := c.close < c.open_

instance (c : Candle) : Decidable c.isGreen := by
  unfold Candle.isGreen; infer_instance

instance (c : Candle) : Decidable c.isRed := by
  unfold Candle.isRed; infer_instance

/-- The fresh candle built when a tick opens a new minute bucket. -/
def newCandle (price : ℚ) (m : Ts) : Candle :=
  { timestamp := m, open_ := price, high := price, low := price,
    close := price, volume := 0 }

/-- The candle-list part of `_update_candle`, identical in both engine
variants: append a new candle when the minute bucket changes (evicting
the head when more than 60 candles results), otherwise refine the
trailing candle's high/low/close in place. -/
def updateCandleList (data : List Candle) (price : ℚ) (ts : Ts) : List Candle :=
  let m := ts.truncMinute
  match data.getLast? with
  | none =>
      let d := data ++ [newCandle price m]
      if 60 < d.length then d.tail else d
  | some last =>
      if last.timestamp ≠ m then
        let d := data ++ [newCandle price m]
        if 60 < d.length then d.tail else d
      else
        data.dropLast ++
          [{ last with high := max last.high price, low := min last.low price,
                       close := price }]

/-- `self.breakout`: `'BUY'` or `'SELL'` (the field itself is optional). -/
inductive Direction where
  | BUY
  | SELL
deriving DecidableEq, Repr

/-- Python's `round` on an exact rational: round half to even. -/
def pyRound (q : ℚ) : ℤ :=
  let f := ⌊q⌋
  let r := q - f
  if r < 1/2 then f
  else if 1/2 < r then f + 1
  else if f % 2 = 0 then f else f + 1

/-- The observable content of an emitted trade signal
(`_generate_signal`): direction, derived strike, CE/PE side, entry
price (the entry candle's close) and the emission time. -/
structure Signal where
  direction : Option Direction
  strike : ℤ
  optionType : String
  entry_price : ℚ
  time : Ts
deriving DecidableEq, Repr

/-- `_in_first15`: 09:15 ≤ time-of-day < 09:30, by hour/minute only. -/
def inFirst15 (t : Ts) : Prop :=
  t.hour = 9 ∧ 15 ≤ t.minute ∧ t.minute < 30

instance (t : Ts) : Decidable (inFirst15 t) := by
  unfold inFirst15; infer_instance

/-- `_in_first5`: 09:15 ≤ time-of-day < 09:20, by hour/minute only. -/
def inFirst5 (t : Ts) : Prop :=
  t.hour = 9 ∧ 15 ≤ t.minute ∧ t.minute < 20

instance (t : Ts) : Decidable (inFirst5 t) := by
  unfold inFirst5; infer_instance

/-- `_is_market_hours`: 09:15:00 ≤ `timestamp.time()` ≤ 15:30:00. -/
def isMarketHours (t : Ts) : Prop :=
  33300 ≤ t.timeOfDaySec ∧ t.timeOfDaySec ≤ 55800

instance (t : Ts) : Decidable (isMarketHours t) := by
  unfold isMarketHours; infer_instance

/-- A live tick delivered to `_process_tick`. -/
structure Tick where
  price : ℚ
  ts : Ts
deriving DecidableEq, Repr

end TradeOne

namespace TradeOne.Fixed

open TradeOne

/-- The strategy-relevant mutable state of
`fixed_groww_trader.OptimizedGrowwTrader`. -/
structure State where
  first15_high : WithTop ℚ
  first15_low : WithTop ℚ
  first15_done : Bool
  context_set : Bool
  breakout : Option Direction
  breakout_price : ℚ
  breakout_time : Option Ts
  retest_touch_occurred : Bool
  retest_confirmed : Bool
  retest_time : Option Ts
  current_price : ℚ
  last_update : Option Ts
  candle_data : List Candle
  tick_count : ℕ
  first_5min_high : WithTop ℚ
  first_5min_low : WithTop ℚ
  first_15min_high : WithTop ℚ
  first_15min_low : WithTop ℚ
  first_5min_done : Bool
  first_15min_done : Bool
  last_signal_time : Option Ts
  signal_cooldown_period : ℤ
  first_15_printed : Bool
deriving DecidableEq

/-- The state after `__init__` when no historical data is available. -/
def initState : State :=
  { first15_high := 0, first15_low := ⊤, first15_done := false,
    context_set := false, breakout := none, breakout_price := 0,
    breakout_time := none, retest_touch_occurred := false,
    retest_confirmed := false, retest_time := none, current_price := 0,
    last_update := none, candle_data := [], tick_count := 0,
    first_5min_high := 0, first_5min_low := ⊤, first_15min_high := 0,
    first_15min_low := ⊤, first_5min_done := false,
    first_15min_done := false, last_signal_time := none,
    signal_cooldown_period := 300, first_15_printed := false }

/-- The state after `__init__` when `fetch_historical_data` returned a
seeded opening range: the 5/15-minute levels are loaded, all capture
flags are set, and `first15_high`/`first15_low` take the 15-minute
values. -/
def seededInit (h5 l5 h15 l15 : ℚ) : State :=
  { initState with
      first_5min_high := (h5 : ℚ), first_5min_low := (l5 : ℚ),
      first_15min_high := (h15 : ℚ), first_15min_low := (l15 : ℚ),
      first_5min_done := true, first_15min_done := true,
      first15_done := true, first15_high := (h15 : ℚ),
      first15_low := (l15 : ℚ) }

/-- `_update_candle` of the fixed variant: update the candle list and,
during market hours, fold the tick into the not-yet-frozen 5/15-minute
levels (the same fold appears in both branches of the source). -/
def updateCandle (s : State) (price : ℚ) (ts : Ts) : State :=
  let s1 := { s with candle_data := updateCandleList s.candle_data price ts }
  if isMarketHours ts then
    let s2 :=
      if ¬ s1.first_5min_done ∧ inFirst5 ts then
        { s1 with first_5min_high := max s1.first_5min_high (price : ℚ),
                  first_5min_low := min s1.first_5min_low (price : ℚ) }
      else s1
    if ¬ s2.first_15min_done ∧ inFirst15 ts then
      { s2 with first_15min_high := max s2.first_15min_high (price : ℚ),
                first_15min_low := min s2.first_15min_low (price : ℚ) }
    else s2
  else s1

/-- `_track_first_15min`. -/
def trackFirst15 (s : State) (ts : Ts) : State :=
  if s.first15_done then s
  else if inFirst15 ts then
    { s with first15_high := max s.first15_high (s.current_price : ℚ),
             first15_low := min s.first15_low (s.current_price : ℚ) }
  else if 34200 ≤ ts.timeOfDaySec then
    { s with first15_done := true }
  else s

/-- `_detect_breakout`: strict comparison of the current price against
the captured range, BUY branch first; records the current price and the
current wall-clock time. -/
def detectBreakout (s : State) (now : Ts) : State :=
  if ((s.current_price : ℚ) : WithTop ℚ) > s.first15_high then
    { s with breakout := some Direction.BUY,
             breakout_price := s.current_price, breakout_time := some now }
  else if ((s.current_price : ℚ) : WithTop ℚ) < s.first15_low then
    { s with breakout := some Direction.SELL,
             breakout_price := s.current_price, breakout_time := some now }
  else s

/-- `_confirm_retest`: two-step touch-then-close confirmation against
the trailing (possibly still forming) candle.  When no touch is on
record this call only ever performs the touch check and returns. -/
def confirmRetest (s : State) (now : Ts) : State :=
  match s.candle_data.getLast? with
  | none => s
  | some current_candle =>
      if ¬ s.retest_touch_occurred then
        if s.breakout = some Direction.BUY ∧
            ((current_candle.low : ℚ) : WithTop ℚ) ≤ s.first15_high then
          { s with retest_touch_occurred := true }
        else if s.breakout = some Direction.SELL ∧
            ((current_candle.high : ℚ) : WithTop ℚ) ≥ s.first15_low then
          { s with retest_touch_occurred := true }
        else s
      else if s.retest_touch_occurred ∧ ¬ s.retest_confirmed then
        if s.breakout = some Direction.BUY ∧
            ((current_candle.close : ℚ) : WithTop ℚ) > s.first15_high then
          { s with retest_confirmed := true, retest_time := some now }
        else if s.breakout = some Direction.SELL ∧
            ((current_candle.close : ℚ) : WithTop ℚ) < s.first15_low then
          { s with retest_confirmed := true, retest_time := some now }
        else s
      else s

/-- `_generate_signal`: suppressed (state untouched, nothing emitted)
when fewer than `signal_cooldown_period` seconds elapsed since
`last_signal_time`; otherwise emits the signal with the derived strike
and CE/PE side and stamps `last_signal_time`. -/
def generateSignal (s : State) (entry_candle : Candle) (now : Ts) :
    State × Option Signal :=
  let entry_price := entry_candle.close
  let emit : State × Option Signal :=
    ({ s with last_signal_time := some now },
     some { direction := s.breakout,
            strike := pyRound (entry_price / 50) * 50,
            optionType := if s.breakout = some Direction.BUY then "CE" else "PE",
            entry_price := entry_price,
            time := now })
  match s.last_signal_time with
  | some t =>
      if tdSeconds now t < s.signal_cooldown_period then (s, none) else emit
  | none => emit

/-- `_reset_strategy`. -/
def resetStrategy (s : State) : State :=
  { s with breakout := none, breakout_price := 0, breakout_time := none,
           retest_touch_occurred := false, retest_confirmed := false,
           retest_time := none }

/-- `_check_entry_signal` of the fixed variant: requires at least 3
stored candles and inspects `candle_data[-2]` and `candle_data[-3]`,
the two most recently completed candles. -/
def checkEntrySignal (s : State) (now : Ts) : State × Option Signal :=
  if s.candle_data.length < 3 then (s, none)
  else
    match s.candle_data.reverse with
    | _ :: last_candle :: prev_candle :: _ =>
        if s.breakout = some Direction.BUY ∧
            last_candle.isGreen ∧ prev_candle.isGreen ∧
            ((last_candle.close : ℚ) : WithTop ℚ) > s.first15_high ∧
            ((prev_candle.close : ℚ) : WithTop ℚ) > s.first15_high then
          let r := generateSignal s last_candle now
          (resetStrategy r.1, r.2)
        else if s.breakout = some Direction.SELL ∧
            last_candle.isRed ∧ prev_candle.isRed ∧
            ((last_candle.close : ℚ) : WithTop ℚ) < s.first15_low ∧
            ((prev_candle.close : ℚ) : WithTop ℚ) < s.first15_low then
          let r := generateSignal s last_candle now
          (resetStrategy r.1, r.2)
        else (s, none)
    | _ => (s, none)

/-- `_execute_strategy`: evaluate the earliest incomplete phase only. -/
def executeStrategy (s : State) (ts now : Ts) : State × Option Signal :=
  if ¬ s.first15_done then (trackFirst15 s ts, none)
  else if s.breakout = none then (detectBreakout s now, none)
  else if ¬ s.retest_confirmed then (confirmRetest s now, none)
  else checkEntrySignal s now

/-- `_set_initial_context` of the fixed variant: marks the context as
set and, when restarting with an established 15-minute range, checks
the live price against the seeded range for an immediate breakout
(BUY branch first). -/
def setInitialContext (s : State) (price : ℚ) (ts : Ts) : State :=
  let s1 := { s with context_set := true }
  if s1.first15_done ∧ (0 : WithTop ℚ) < s1.first15_high ∧
      s1.first15_low < (⊤ : WithTop ℚ) then
    if ((price : ℚ) : WithTop ℚ) > s1.first15_high then
      { s1 with breakout := some Direction.BUY, breakout_price := price,
                breakout_time := some ts }
    else if ((price : ℚ) : WithTop ℚ) < s1.first15_low then
      { s1 with breakout := some Direction.SELL, breakout_price := price,
                breakout_time := some ts }
    else s1
  else s1

/-- `_print_15min_levels_at_931` (only its flag matters here). -/
def print15minLevelsAt931 (s : State) (ts : Ts) : State :=
  if ¬ s.first_15_printed ∧ ts.hour = 9 ∧ 31 ≤ ts.minute ∧ s.first15_done then
    { s with first_15_printed := true }
  else s

/-- `_process_tick` of the fixed variant. -/
def processTick (s : State) (price : ℚ) (ts now : Ts) : State × Option Signal :=
  let s1 := { s with current_price := price, last_update := some ts,
                     tick_count := s.tick_count + 1 }
  let s2 := if ¬ s1.context_set then setInitialContext s1 price ts else s1
  let s3 := updateCandle s2 price ts
  let r := executeStrategy s3 ts now
  (print15minLevelsAt931 r.1 ts, r.2)

/-- Feed a list of ticks through `_process_tick`, collecting emitted
signals; `datetime.now` during a tick is the tick's own timestamp. -/
def runTicks (s : State) (ticks : List Tick) : State × List Signal :=
  match ticks with
  | [] => (s, [])
  | t :: rest =>
      let r := processTick s t.price t.ts t.ts
      let r2 := runTicks r.1 rest
      (r2.1, r.2.toList ++ r2.2)

/-- `_get_current_phase`. -/
inductive Phase where
  | trackingFirst15
  | waitingForBreakout
  | waitingForRetest
  | waitingForEntry
deriving DecidableEq, Repr

/-- `_get_current_phase`: the strategy phase implied by the state. -/
def getCurrentPhase (s : State) : Phase :=
  if ¬ s.first15_done then Phase.trackingFirst15
  else if s.breakout = none then Phase.waitingForBreakout
  else if ¬ s.retest_confirmed then Phase.waitingForRetest
  else Phase.waitingForEntry

end TradeOne.Fixed

namespace TradeOne.Optimized

open TradeOne

/-- The strategy-relevant mutable state of
`optimized_groww_trader.OptimizedGrowwTrader` (this variant has no
5/15-minute bookkeeping fields and no cooldown fields). -/
structure State where
  first15_high : WithTop ℚ
  first15_low : WithTop ℚ
  first15_done : Bool
  context_set : Bool
  breakout : Option Direction
  breakout_price : ℚ
  breakout_time : Option Ts
  retest_touch_occurred : Bool
  retest_confirmed : Bool
  retest_time : Option Ts
  current_price : ℚ
  last_update : Option Ts
  candle_data : List Candle
  tick_count : ℕ
deriving DecidableEq

/-- The state after `__init__` of the optimized variant. -/
def initState : State :=
  { first15_high := 0, first15_low := ⊤, first15_done := false,
    context_set := false, breakout := none, breakout_price := 0,
    breakout_time := none, retest_touch_occurred := false,
    retest_confirmed := false, retest_time := none, current_price := 0,
    last_update := none, candle_data := [], tick_count := 0 }

/-- `_set_initial_context` of the optimized variant: on the first tick
it sets both range bounds to the tick's price and immediately marks the
range as done. -/
def setInitialContext (s : State) (price : ℚ) : State :=
  { s with context_set := true, first15_high := (price : ℚ),
           first15_low := (price : ℚ), first15_done := true }

/-- `_update_candle` of the optimized variant (candle list only). -/
def updateCandle (s : State) (price : ℚ) (ts : Ts) : State :=
  { s with candle_data := updateCandleList s.candle_data price ts }

/-- `_track_first_15min` of the optimized variant. -/
def trackFirst15 (s : State) (ts : Ts) : State :=
  if inFirst15 ts then
    { s with first15_high := max s.first15_high (s.current_price : ℚ),
             first15_low := min s.first15_low (s.current_price : ℚ) }
  else if 34200 ≤ ts.timeOfDaySec then
    { s with first15_done := true }
  else s

/-- `_detect_breakout` of the optimized variant: needs at least 5
candles; the evaluated price is the close of the 5-minute aggregation
of the last 5 candles, which is the trailing candle's close (the
aggregated open/high/low/volume are computed by the source but never
read). -/
def detectBreakout (s : State) (now : Ts) : State :=
  if s.candle_data.length < 5 then s
  else
    match s.candle_data.getLast? with
    | none => s
    | some lastc =>
        let close_price := lastc.close
        if ((close_price : ℚ) : WithTop ℚ) > s.first15_high then
          { s with breakout := some Direction.BUY,
                   breakout_price := close_price, breakout_time := some now }
        else if ((close_price : ℚ) : WithTop ℚ) < s.first15_low then
          { s with breakout := some Direction.SELL,
                   breakout_price := close_price, breakout_time := some now }
        else s

/-- `_confirm_retest` of the optimized variant (same two-step logic as
the fixed variant). -/
def confirmRetest (s : State) (now : Ts) : State :=
  match s.candle_data.getLast? with
  | none => s
  | some current_candle =>
      if ¬ s.retest_touch_occurred then
        if s.breakout = some Direction.BUY ∧
            ((current_candle.low : ℚ) : WithTop ℚ) ≤ s.first15_high then
          { s with retest_touch_occurred := true }
        else if s.breakout = some Direction.SELL ∧
            ((current_candle.high : ℚ) : WithTop ℚ) ≥ s.first15_low then
          { s with retest_touch_occurred := true }
        else s
      else if s.retest_touch_occurred ∧ ¬ s.retest_confirmed then
        if s.breakout = some Direction.BUY ∧
            ((current_candle.close : ℚ) : WithTop ℚ) > s.first15_high then
          { s with retest_confirmed := true, retest_time := some now }
        else if s.breakout = some Direction.SELL ∧
            ((current_candle.close : ℚ) : WithTop ℚ) < s.first15_low then
          { s with retest_confirmed := true, retest_time := some now }
        else s
      else s

/-- `_generate_signal` of the optimized variant: no cooldown check, the
signal is always emitted. -/
def generateSignal (s : State) (entry_candle : Candle) (now : Ts) :
    State × Option Signal :=
  let entry_price := entry_candle.close
  (s,
   some { direction := s.breakout,
          strike := pyRound (entry_price / 50) * 50,
          optionType := if s.breakout = some Direction.BUY then "CE" else "PE",
          entry_price := entry_price,
          time := now })

/-- `_reset_strategy` of the optimized variant. -/
def resetStrategy (s : State) : State :=
  { s with breakout := none, breakout_price := 0, breakout_time := none,
           retest_touch_occurred := false, retest_confirmed := false,
           retest_time := none }

/-- `_check_entry_signal` of the optimized variant: requires only 2
stored candles and inspects `candle_data[-1]` (the still-forming
trailing candle) and `candle_data[-2]`. -/
def checkEntrySignal (s : State) (now : Ts) : State × Option Signal :=
  if s.candle_data.length < 2 then (s, none)
  else
    match s.candle_data.reverse with
    | last_candle :: prev_candle :: _ =>
        if s.breakout = some Direction.BUY ∧
            last_candle.isGreen ∧ prev_candle.isGreen ∧
            ((last_candle.close : ℚ) : WithTop ℚ) > s.first15_high ∧
            ((prev_candle.close : ℚ) : WithTop ℚ) > s.first15_high then
          let r := generateSignal s last_candle now
          (resetStrategy r.1, r.2)
        else if s.breakout = some Direction.SELL ∧
            last_candle.isRed ∧ prev_candle.isRed ∧
            ((last_candle.close : ℚ) : WithTop ℚ) < s.first15_low ∧
            ((prev_candle.close : ℚ) : WithTop ℚ) < s.first15_low then
          let r := generateSignal s last_candle now
          (resetStrategy r.1, r.2)
        else (s, none)
    | _ => (s, none)

/-- `_execute_strategy` of the optimized variant. -/
def executeStrategy (s : State) (ts now : Ts) : State × Option Signal :=
  if ¬ s.first15_done then (trackFirst15 s ts, none)
  else if s.breakout = none then (detectBreakout s now, none)
  else if ¬ s.retest_confirmed then (confirmRetest s now, none)
  else checkEntrySignal s now

/-- `_process_tick` of the optimized variant. -/
def processTick (s : State) (price : ℚ) (ts now : Ts) : State × Option Signal :=
  let s1 := { s with current_price := price, last_update := some ts,
                     tick_count := s.tick_count + 1 }
  let s2 := if ¬ s1.context_set then setInitialContext s1 price else s1
  let s3 := updateCandle s2 price ts
  executeStrategy s3 ts now

/-- Feed a list of ticks through the optimized `_process_tick`,
collecting emitted signals. -/
def runTicks (s : State) (ticks : List Tick) : State × List Signal :=
  match ticks with
  | [] => (s, [])
  | t :: rest =>
      let r := processTick s t.price t.ts t.ts
      let r2 := runTicks r.1 rest
      (r2.1, r.2.toList ++ r2.2)

end TradeOne.Optimized

namespace TradeOne

/-- A timestamp on day 0 at the given hour/minute/second. -/
def tsAt (h m sec : ℕ) : Ts := ⟨0, h, m, sec⟩

/-- An out-of-order tick sequence: 09:40, then 09:39, then 09:40 again. -/
def c2ticks : List Tick :=
  [⟨100, tsAt 9 40 0⟩, ⟨100, tsAt 9 39 0⟩, ⟨100, tsAt 9 40 0⟩]

/-- A small in-order tick sequence. -/
def c2wTicks : List Tick :=
  [⟨100, tsAt 9 40 0⟩, ⟨101, tsAt 9 41 0⟩, ⟨101, tsAt 9 41 30⟩, ⟨99, tsAt 9 42 0⟩]

/-- A tick sequence that drives the optimized engine through two full
breakout/retest/entry cycles whose emissions are 290 seconds apart. -/
def c3ticks : List Tick :=
  [⟨100, tsAt 9 40 0⟩, ⟨101, tsAt 9 41 0⟩, ⟨101, tsAt 9 42 0⟩, ⟨101, tsAt 9 43 0⟩,
   ⟨101, tsAt 9 44 0⟩, ⟨100, tsAt 9 45 0⟩, ⟨101, tsAt 9 46 0⟩, ⟨100, tsAt 9 47 0⟩,
   ⟨102, tsAt 9 47 30⟩, ⟨101, tsAt 9 48 0⟩, ⟨103, tsAt 9 48 30⟩, ⟨104, tsAt 9 49 0⟩,
   ⟨100, tsAt 9 50 0⟩, ⟨101, tsAt 9 51 0⟩, ⟨100, tsAt 9 52 0⟩, ⟨102, tsAt 9 52 30⟩,
   ⟨101, tsAt 9 53 0⟩, ⟨103, tsAt 9 53 20⟩]

/-- A completed green candle closing at 101. -/
def gcand1 : Candle := ⟨tsAt 9 48 0, 100, 101, 100, 101, 0⟩

/-- A completed green candle closing at 102. -/
def gcand2 : Candle := ⟨tsAt 9 49 0, 101, 102, 101, 102, 0⟩

/-- A flat still-forming trailing candle. -/
def formingCand : Candle := ⟨tsAt 9 50 0, 102, 102, 102, 102, 0⟩

/-- A red trailing candle at the same bucket as `formingCand`. -/
def redCand : Candle := ⟨tsAt 9 50 0, 102, 102, 99, 99, 0⟩

/-- A fixed-engine state in the entry-signal phase whose two completed
candles (`gcand1`, `gcand2`) form a bullish entry pattern above the
captured range high of 100. -/
def entryPatternState : Fixed.State :=
  { Fixed.initState with
      first15_done := true, first15_high := (100 : ℚ), first15_low := (90 : ℚ),
      context_set := true, breakout := some Direction.BUY,
      breakout_price := 101, breakout_time := some (tsAt 9 45 0),
      retest_touch_occurred := true, retest_confirmed := true,
      retest_time := some (tsAt 9 47 0), current_price := 102,
      candle_data := [gcand1, gcand2, formingCand] }

/-- `entryPatternState` with only two stored candles. -/
def shortCandleState : Fixed.State :=
  { entryPatternState with candle_data := [gcand1, gcand2] }

/-- `entryPatternState` with the trailing candle replaced by a red one. -/
def entryPatternStateRed : Fixed.State :=
  { entryPatternState with candle_data := [gcand1, gcand2] ++ [redCand] }

/-- `entryPatternState` with a signal emitted 120 seconds ago, so the
default 300-second cooldown is active at 09:52:00. -/
def cooldownState : Fixed.State :=
  { entryPatternState with last_signal_time := some (tsAt 9 50 0) }

/-- A candle whose low touches the level 100 and whose close reclaims
it in the same (still-forming) bar. -/
def bothCondCand : Candle := ⟨tsAt 9 46 0, 100, 103, 99, 103, 0⟩

/-- A fixed-engine state after a BUY breakout, before any retest touch,
whose trailing candle satisfies both the touch and the close condition
at once. -/
def retestBothCondState : Fixed.State :=
  { entryPatternState with
      retest_touch_occurred := false, retest_confirmed := false,
      retest_time := none, candle_data := [bothCondCand] }

/-- The optimized-engine counterpart of `retestBothCondState`. -/
def retestBothCondStateOpt : Optimized.State :=
  { Optimized.initState with
      first15_done := true, first15_high := (100 : ℚ), first15_low := (90 : ℚ),
      context_set := true, breakout := some Direction.BUY,
      breakout_price := 101, breakout_time := some (tsAt 9 45 0),
      current_price := 103, candle_data := [bothCondCand] }

/-- A fixed-engine state watching for a breakout with the price at 103
against a captured range of (100, 90). -/
def preBreakoutState : Fixed.State :=
  { entryPatternState with
      breakout := none, breakout_price := 0, breakout_time := none,
      retest_touch_occurred := false, retest_confirmed := false,
      retest_time := none, current_price := 103 }

/-- Five one-minute candles whose trailing close is 103. -/
def fiveCandles : List Candle :=
  [⟨tsAt 9 44 0, 100, 101, 100, 101, 0⟩, ⟨tsAt 9 45 0, 101, 101, 100, 100, 0⟩,
   ⟨tsAt 9 46 0, 100, 102, 100, 102, 0⟩, ⟨tsAt 9 47 0, 102, 102, 101, 101, 0⟩,
   ⟨tsAt 9 48 0, 101, 103, 101, 103, 0⟩]

/-- The optimized-engine counterpart of `preBreakoutState`. -/
def preBreakoutStateOpt : Optimized.State :=
  { retestBothCondStateOpt with
      breakout := none, breakout_price := 0, breakout_time := none,
      candle_data := fiveCandles }

/-- An optimized-engine state in the entry-signal phase holding only
two candles, the trailing (forming) one green and closing at 103. -/
def c1state : Optimized.State :=
  { Optimized.initState with
      first15_high := (100 : ℚ), first15_low := (100 : ℚ), first15_done := true,
      context_set := true, breakout := some Direction.BUY, breakout_price := 101,
      breakout_time := some (tsAt 9 44 0), retest_touch_occurred := true,
      retest_confirmed := true, retest_time := some (tsAt 9 46 0),
      current_price := 103, last_update := some (tsAt 9 48 30),
      candle_data := [⟨tsAt 9 47 0, 101, 102, 101, 102, 0⟩,
                      ⟨tsAt 9 48 0, 101, 103, 101, 103, 0⟩] }

/-- `c1state` with the trailing forming candle flat instead of green. -/
def c1stateFlat : Optimized.State :=
  { c1state with candle_data := [⟨tsAt 9 47 0, 101, 102, 101, 102, 0⟩,
                                 ⟨tsAt 9 48 0, 101, 101, 101, 101, 0⟩] }

/-- Two fixed-engine states agree on every pattern-detection field
(breakout direction/price/time, both retest flags, retest time) and on
the stored candles. -/
def Fixed.sameDetectionState (a b : Fixed.State) : Prop :=
  a.breakout = b.breakout ∧ a.breakout_price = b.breakout_price ∧
  a.breakout_time = b.breakout_time ∧
  a.retest_touch_occurred = b.retest_touch_occurred ∧
  a.retest_confirmed = b.retest_confirmed ∧ a.retest_time = b.retest_time ∧
  a.candle_data = b.candle_data

/-- The candle-sequence invariant: at most 60 candles, bucket
timestamps strictly increasing (hence all distinct), every bucket a
valid timestamp no later than `bound`. -/
def CandleInv (data : List Candle) (bound : ℕ) : Prop :=
  data.length ≤ 60 ∧
  List.Pairwise (fun a b => a.timestamp.toSec < b.timestamp.toSec) data ∧
  ∀ c ∈ data, c.timestamp.Valid ∧ c.timestamp.toSec ≤ bound

end TradeOne

namespace TradeOne

/-- With no touch on record, the fixed-variant retest confirmer either
leaves the state unchanged or only records the touch. -/
theorem Fixed.confirmRetest_touch_phase (s : Fixed.State) (now : Ts)
    (h : s.retest_touch_occurred = false) :
    Fixed.confirmRetest s now = s ∨
    Fixed.confirmRetest s now = { s with retest_touch_occurred := true } := by
  unfold Fixed.confirmRetest
  cases s.candle_data.getLast? with
  | none => exact Or.inl rfl
  | some c =>
      simp only [h]
      split_ifs <;> simp_all

/-- With no touch on record, the optimized-variant retest confirmer
either leaves the state unchanged or only records the touch. -/
theorem Optimized.confirmRetest_touch_phase_opt (s : Optimized.State) (now : Ts)
    (h : s.retest_touch_occurred = false) :
    Optimized.confirmRetest s now = s ∨
    Optimized.confirmRetest s now = { s with retest_touch_occurred := true } := by
  unfold Optimized.confirmRetest
  cases s.candle_data.getLast? with
  | none => exact Or.inl rfl
  | some c =>
      simp only [h]
      split_ifs <;> simp_all

/-- C5: in a state where the retest touch has not yet occurred, a
single invocation of the retest confirmer (either engine variant) can
at most record the touch and then returns; it never also sets
`retest_confirmed` (or `retest_time`) in that same invocation, even
when the trailing candle simultaneously satisfies the touch and the
close condition. -/
theorem c5_retest_touch_never_confirms (sf : Fixed.State)
    (so : Optimized.State) (now : Ts) :
    (sf.retest_touch_occurred = false →
      ((Fixed.confirmRetest sf now = sf ∨
        Fixed.confirmRetest sf now = { sf with retest_touch_occurred := true }) ∧
       (Fixed.confirmRetest sf now).retest_confirmed = sf.retest_confirmed ∧
       (Fixed.confirmRetest sf now).retest_time = sf.retest_time)) ∧
    (so.retest_touch_occurred = false →
      ((Optimized.confirmRetest so now = so ∨
        Optimized.confirmRetest so now = { so with retest_touch_occurred := true }) ∧
       (Optimized.confirmRetest so now).retest_confirmed = so.retest_confirmed ∧
       (Optimized.confirmRetest so now).retest_time = so.retest_time)) := by
  constructor
  · intro h
    have hs := Fixed.confirmRetest_touch_phase sf now h
    refine ⟨hs, ?_, ?_⟩ <;> rcases hs with hs | hs <;> rw [hs]
  · intro h
    have hs := Optimized.confirmRetest_touch_phase_opt so now h
    refine ⟨hs, ?_, ?_⟩ <;> rcases hs with hs | hs <;> rw [hs]

/-- C5 witness: a concrete post-breakout state whose trailing candle
touches the level (low 99 ≤ 100) and closes beyond it (103 > 100) in
the same call; the invocation records the touch but does not confirm,
in both variants. -/
theorem c5_witness :
    retestBothCondState.retest_touch_occurred = false ∧
    retestBothCondState.candle_data.getLast?.map Candle.low = some 99 ∧
    retestBothCondState.candle_data.getLast?.map Candle.close = some 103 ∧
    retestBothCondState.first15_high = ((100 : ℚ) : WithTop ℚ) ∧
    (Fixed.confirmRetest retestBothCondState (tsAt 9 47 0)).retest_confirmed = false ∧
    (Fixed.confirmRetest retestBothCondState (tsAt 9 47 0)).retest_touch_occurred = true ∧
    (Optimized.confirmRetest retestBothCondStateOpt (tsAt 9 47 0)).retest_confirmed = false := by
  refine ⟨by decide, by decide, by decide, by decide, ?_, by decide, ?_⟩
  · have h := (c5_retest_touch_never_confirms retestBothCondState
      retestBothCondStateOpt (tsAt 9 47 0)).1 (by decide)
    exact h.2.1.trans (by decide)
  · have h := (c5_retest_touch_never_confirms retestBothCondState
      retestBothCondStateOpt (tsAt 9 47 0)).2 (by decide)
    exact h.2.1.trans (by decide)

end TradeOne

namespace TradeOne

/-- C6: breakout detection is strict in both directions and BUY is
checked first.  In the fixed variant the evaluated price is the current
tick price; the result is BUY exactly when it strictly exceeds the
range high, SELL exactly when the BUY test failed and it is strictly
below the range low, price equal to a bound of a sane range (low ≤
high) changes nothing, and any fired breakout records the evaluated
price itself and the current time.  The optimized variant satisfies the
same characterisation with the evaluated price being the trailing
candle's close (the close of its 5-minute aggregation), once at least 5
candles are stored. -/
theorem c6_breakout_strict_inequality (s : Fixed.State) (so : Optimized.State)
    (now : Ts) (h : s.breakout = none) (ho : so.breakout = none) :
    ((Fixed.detectBreakout s now).breakout = some Direction.BUY ↔
        ((s.current_price : ℚ) : WithTop ℚ) > s.first15_high) ∧
    ((Fixed.detectBreakout s now).breakout = some Direction.SELL ↔
        (¬ ((s.current_price : ℚ) : WithTop ℚ) > s.first15_high ∧
         ((s.current_price : ℚ) : WithTop ℚ) < s.first15_low)) ∧
    (∀ d, (Fixed.detectBreakout s now).breakout = some d →
        (Fixed.detectBreakout s now).breakout_price = s.current_price ∧
        (Fixed.detectBreakout s now).breakout_time = some now) ∧
    (s.first15_low ≤ s.first15_high →
      (((s.current_price : ℚ) : WithTop ℚ) = s.first15_high ∨
       ((s.current_price : ℚ) : WithTop ℚ) = s.first15_low) →
      Fixed.detectBreakout s now = s) ∧
    (∀ lastc, so.candle_data.getLast? = some lastc →
      ¬ so.candle_data.length < 5 →
      (((Optimized.detectBreakout so now).breakout = some Direction.BUY ↔
          ((lastc.close : ℚ) : WithTop ℚ) > so.first15_high) ∧
       ((Optimized.detectBreakout so now).breakout = some Direction.SELL ↔
          (¬ ((lastc.close : ℚ) : WithTop ℚ) > so.first15_high ∧
           ((lastc.close : ℚ) : WithTop ℚ) < so.first15_low)) ∧
       (∀ d, (Optimized.detectBreakout so now).breakout = some d →
          (Optimized.detectBreakout so now).breakout_price = lastc.close ∧
          (Optimized.detectBreakout so now).breakout_time = some now))) := by
  have hfix : ∀ x : Fixed.State, x = s →
      ((Fixed.detectBreakout s now).breakout = some Direction.BUY ↔
        ((s.current_price : ℚ) : WithTop ℚ) > s.first15_high) := by
    intro x _
    unfold Fixed.detectBreakout
    split_ifs with h1 h2 <;> simp_all
  refine ⟨hfix s rfl, ?_, ?_, ?_, ?_⟩
  · unfold Fixed.detectBreakout
    split_ifs with h1 h2 <;> simp_all
  · intro d
    unfold Fixed.detectBreakout
    split_ifs with h1 h2 <;> simp_all
  · intro hle heq
    unfold Fixed.detectBreakout
    split_ifs with h1 h2
    · rcases heq with heq | heq
      · exact absurd heq (ne_of_gt h1)
      · exact absurd (lt_of_le_of_lt (heq ▸ hle) h1) (lt_irrefl _)
    · rcases heq with heq | heq
      · exact absurd (heq ▸ h2) (not_lt_of_le hle)
      · exact absurd heq (ne_of_lt h2)
    · rfl
  · intro lastc hlast hlen
    unfold Optimized.detectBreakout
    rw [if_neg hlen, hlast]
    dsimp only
    refine ⟨?_, ?_, ?_⟩
    · split_ifs with h1 h2 <;> simp_all
    · split_ifs with h1 h2 <;> simp_all
    · intro d
      split_ifs with h1 h2 <;> simp_all

/-- C6 witness: concrete watching-for-breakout states.  In the fixed
variant, price 103 against range (high 100, low 90) fires BUY at
breakout price 103; price equal to the high (100) fires nothing.  In
the optimized variant, five candles with trailing close 103 fire BUY at
breakout price 103. -/
theorem c6_witness :
    ((Fixed.detectBreakout preBreakoutState (tsAt 9 49 0)).breakout =
       some Direction.BUY ∧
     (Fixed.detectBreakout preBreakoutState (tsAt 9 49 0)).breakout_price = 103 ∧
     (Fixed.detectBreakout preBreakoutState (tsAt 9 49 0)).breakout_time =
       some (tsAt 9 49 0)) ∧
    Fixed.detectBreakout { preBreakoutState with current_price := 100 }
      (tsAt 9 49 0) = { preBreakoutState with current_price := 100 } ∧
    ((Optimized.detectBreakout preBreakoutStateOpt (tsAt 9 49 0)).breakout =
       some Direction.BUY ∧
     (Optimized.detectBreakout preBreakoutStateOpt (tsAt 9 49 0)).breakout_price
       = 103) := by
  have h := c6_breakout_strict_inequality preBreakoutState preBreakoutStateOpt
    (tsAt 9 49 0) (by decide) (by decide)
  have hbuy : (Fixed.detectBreakout preBreakoutState (tsAt 9 49 0)).breakout =
      some Direction.BUY := h.1.mpr (by decide)
  have heq := c6_breakout_strict_inequality
    { preBreakoutState with current_price := 100 } preBreakoutStateOpt
    (tsAt 9 49 0) (by decide) (by decide)
  have hopt := h.2.2.2.2 (fiveCandles.getLast (by decide)) (by decide) (by decide)
  have hob : (Optimized.detectBreakout preBreakoutStateOpt (tsAt 9 49 0)).breakout
      = some Direction.BUY := hopt.1.mpr (by decide)
  exact ⟨⟨hbuy, ((h.2.2.1) Direction.BUY hbuy).1.trans (by decide),
          ((h.2.2.1) Direction.BUY hbuy).2⟩,
         heq.2.2.2.1 (by decide) (Or.inl (by decide)),
         hob, (hopt.2.2 Direction.BUY hob).1.trans (by decide)⟩

end TradeOne

namespace TradeOne

/-- With the cooldown active, `_generate_signal` of the fixed variant
returns without emitting and without changing any state. -/
theorem Fixed.generateSignal_cooldown (s : Fixed.State) (c : Candle)
    (now t : Ts) (hl : s.last_signal_time = some t)
    (hc : tdSeconds now t < s.signal_cooldown_period) :
    Fixed.generateSignal s c now = (s, none) := by
  unfold Fixed.generateSignal
  rw [hl]
  dsimp only
  rw [if_pos hc]

/-- C4: when the cooldown is active (fewer than
`signal_cooldown_period` seconds since `last_signal_time`), the fixed
variant's `_generate_signal` is the identity on the state and emits
nothing; moreover `_check_entry_signal` emits nothing and leaves the
pattern-detection state (breakout direction/price/time, retest flags
and time, candles) exactly as it would have been without the cooldown:
only the final emission is gated. -/
theorem c4_cooldown_gates_only_emission (s : Fixed.State) (c : Candle)
    (now t : Ts) (hl : s.last_signal_time = some t)
    (hc : tdSeconds now t < s.signal_cooldown_period) :
    Fixed.generateSignal s c now = (s, none) ∧
    (Fixed.checkEntrySignal s now).2 = none ∧
    Fixed.sameDetectionState (Fixed.checkEntrySignal s now).1
      (Fixed.checkEntrySignal { s with last_signal_time := none } now).1 := by
  refine ⟨Fixed.generateSignal_cooldown s c now t hl hc, ?_⟩
  unfold Fixed.checkEntrySignal
  dsimp only
  by_cases hlen : s.candle_data.length < 3
  · rw [if_pos hlen, if_pos hlen]
    exact ⟨rfl, by simp [Fixed.sameDetectionState]⟩
  · rw [if_neg hlen, if_neg hlen]
    rcases hrev : s.candle_data.reverse with _ | ⟨a, _ | ⟨b, _ | ⟨b2, rest⟩⟩⟩
    · simp [Fixed.sameDetectionState]
    · simp [Fixed.sameDetectionState]
    · simp [Fixed.sameDetectionState]
    · simp only []
      rw [Fixed.generateSignal_cooldown s b now t hl hc]
      split_ifs <;>
        simp [Fixed.sameDetectionState, Fixed.resetStrategy,
          Fixed.generateSignal]

/-- C4 witness: a concrete entry-pattern state 120 seconds after the
last signal; the suppressed call changes nothing, and the detection
state evolves exactly as in the cooldown-free run (which emits). -/
theorem c4_witness :
    Fixed.generateSignal cooldownState gcand2 (tsAt 9 52 0) =
      (cooldownState, none) ∧
    (Fixed.checkEntrySignal cooldownState (tsAt 9 52 0)).2 = none ∧
    Fixed.sameDetectionState
      (Fixed.checkEntrySignal cooldownState (tsAt 9 52 0)).1
      (Fixed.checkEntrySignal
        { cooldownState with last_signal_time := none } (tsAt 9 52 0)).1 ∧
    tdSeconds (tsAt 9 52 0) (tsAt 9 50 0) <
      cooldownState.signal_cooldown_period ∧
    (Fixed.checkEntrySignal
      { cooldownState with last_signal_time := none } (tsAt 9 52 0)).2.isSome
      = true := by
  have h := c4_cooldown_gates_only_emission cooldownState gcand2
    (tsAt 9 52 0) (tsAt 9 50 0) (by decide) (by decide)
  exact ⟨h.1, h.2.1, h.2.2, by decide, by decide⟩

end TradeOne

namespace TradeOne

/-- Evaluation of the strike formula at entry price 102. -/
theorem pyRound_102 : pyRound ((102 : ℚ) / 50) * 50 = 100 := by
  norm_num [pyRound]

/-- Any signal emitted by the fixed variant's `_generate_signal` is
exactly the record built from the entry candle's close. -/
theorem Fixed.generateSignal_emit (s : Fixed.State) (c : Candle) (now : Ts)
    (sg : Signal) (h : (Fixed.generateSignal s c now).2 = some sg) :
    sg = { direction := s.breakout, strike := pyRound (c.close / 50) * 50,
           optionType := if s.breakout = some Direction.BUY then "CE" else "PE",
           entry_price := c.close, time := now } := by
  unfold Fixed.generateSignal at h
  dsimp only at h
  split at h
  · split at h
    · exact absurd h (by simp)
    · exact (Option.some.injEq _ _ ▸ h).symm
  · exact (Option.some.injEq _ _ ▸ h).symm

/-- Any signal emitted by the optimized variant's `_generate_signal`
is exactly the record built from the entry candle's close. -/
theorem Optimized.generateSignal_emit_opt (s : Optimized.State) (c : Candle)
    (now : Ts) (sg : Signal)
    (h : (Optimized.generateSignal s c now).2 = some sg) :
    sg = { direction := s.breakout, strike := pyRound (c.close / 50) * 50,
           optionType := if s.breakout = some Direction.BUY then "CE" else "PE",
           entry_price := c.close, time := now } := by
  unfold Optimized.generateSignal at h
  dsimp only at h
  exact (Option.some.injEq _ _ ▸ h).symm

/-- Any signal emitted by the fixed variant's `_check_entry_signal`
came from `_generate_signal` on the entry candle. -/
theorem Fixed.checkEntrySignal_emit (s : Fixed.State) (now : Ts) (sg : Signal)
    (h : (Fixed.checkEntrySignal s now).2 = some sg) :
    sg = { direction := s.breakout,
           strike := pyRound (sg.entry_price / 50) * 50,
           optionType := if s.breakout = some Direction.BUY then "CE" else "PE",
           entry_price := sg.entry_price, time := now } := by
  unfold Fixed.checkEntrySignal at h
  split at h
  all_goals try split at h
  all_goals try split_ifs at h
  all_goals try dsimp only at h
  all_goals
    first
      | exact Option.noConfusion h
      | (have hg := Fixed.generateSignal_emit s _ now sg h; rw [hg])

/-- Any signal emitted by the optimized variant's `_check_entry_signal`
came from `_generate_signal` on the entry candle. -/
theorem Optimized.checkEntrySignal_emit_opt (s : Optimized.State) (now : Ts)
    (sg : Signal) (h : (Optimized.checkEntrySignal s now).2 = some sg) :
    sg = { direction := s.breakout,
           strike := pyRound (sg.entry_price / 50) * 50,
           optionType := if s.breakout = some Direction.BUY then "CE" else "PE",
           entry_price := sg.entry_price, time := now } := by
  unfold Optimized.checkEntrySignal at h
  split at h
  all_goals try split at h
  all_goals try split_ifs at h
  all_goals try dsimp only at h
  all_goals
    first
      | exact Option.noConfusion h
      | (have hg := Optimized.generateSignal_emit_opt s _ now sg h; rw [hg])

/-- C9: every signal emitted by the entry-signal evaluator (either
variant) carries `strike = round(entry_price / 50) * 50`, option side
CE when the breakout direction is BUY and PE when it is SELL; in
particular an entry price of 102 yields strike 100. -/
theorem c9_strike_and_side (s : Fixed.State) (so : Optimized.State) (now : Ts) :
    (∀ sg, (Fixed.checkEntrySignal s now).2 = some sg →
       sg.strike = pyRound (sg.entry_price / 50) * 50 ∧
       (s.breakout = some Direction.BUY → sg.optionType = "CE") ∧
       (s.breakout = some Direction.SELL → sg.optionType = "PE") ∧
       (sg.entry_price = 102 → sg.strike = 100)) ∧
    (∀ sg, (Optimized.checkEntrySignal so now).2 = some sg →
       sg.strike = pyRound (sg.entry_price / 50) * 50 ∧
       (so.breakout = some Direction.BUY → sg.optionType = "CE") ∧
       (so.breakout = some Direction.SELL → sg.optionType = "PE") ∧
       (sg.entry_price = 102 → sg.strike = 100)) := by
  constructor
  · intro sg h
    have he := Fixed.checkEntrySignal_emit s now sg h
    refine ⟨by rw [he], ?_, ?_, ?_⟩
    · intro hb; rw [he]; simp [hb]
    · intro hb; rw [he]; simp [hb]
    · intro hep
      rw [he]
      dsimp only
      rw [hep, pyRound_102]
  · intro sg h
    have he := Optimized.checkEntrySignal_emit_opt so now sg h
    refine ⟨by rw [he], ?_, ?_, ?_⟩
    · intro hb; rw [he]; simp [hb]
    · intro hb; rw [he]; simp [hb]
    · intro hep
      rw [he]
      dsimp only
      rw [hep, pyRound_102]

/-- C9 witness: the concrete entry-pattern state emits a signal with
entry price 102 (the entry candle's close), strike 100 and side CE. -/
theorem c9_witness :
    (Fixed.checkEntrySignal entryPatternState (tsAt 9 51 0)).2.map
      Signal.entry_price = some 102 ∧
    (Fixed.checkEntrySignal entryPatternState (tsAt 9 51 0)).2.map
      Signal.strike = some 100 ∧
    (Fixed.checkEntrySignal entryPatternState (tsAt 9 51 0)).2.map
      Signal.optionType = some "CE" := by
  obtain ⟨sg, hsg⟩ :
      ∃ sg, (Fixed.checkEntrySignal entryPatternState (tsAt 9 51 0)).2 =
        some sg :=
    Option.isSome_iff_exists.mp (by decide)
  have hep : sg.entry_price = 102 := by
    have h102 : (Fixed.checkEntrySignal entryPatternState (tsAt 9 51 0)).2.map
        Signal.entry_price = some 102 := by decide
    rw [hsg] at h102
    simpa using h102
  have h := (c9_strike_and_side entryPatternState retestBothCondStateOpt
    (tsAt 9 51 0)).1 sg hsg
  refine ⟨?_, ?_, ?_⟩
  · rw [hsg]; simpa using hep
  · rw [hsg]; simp [h.2.2.2 hep]
  · rw [hsg]; simp [h.2.1 (by decide)]

end TradeOne

namespace TradeOne

/-- The emitted part of the fixed variant's `_generate_signal` does not
depend on the stored candle list. -/
theorem Fixed.generateSignal_snd_candles (s : Fixed.State) (d : List Candle)
    (a : Candle) (now : Ts) :
    (Fixed.generateSignal { s with candle_data := d } a now).2 =
      (Fixed.generateSignal s a now).2 := by
  unfold Fixed.generateSignal
  dsimp only
  cases s.last_signal_time with
  | none => rfl
  | some t =>
      dsimp only
      split_ifs <;> rfl

/-- C1 (amended, fixed variant): the fixed entry-signal evaluator
returns unchanged and without a signal whenever fewer than 3 candles
are stored, and its emission never depends on the still-forming
trailing candle: replacing `candle_data[-1]` by any other candle
leaves the emitted signal unchanged. -/
theorem c1_entry_uses_completed_candles (s : Fixed.State) (now : Ts) :
    (s.candle_data.length < 3 → Fixed.checkEntrySignal s now = (s, none)) ∧
    (∀ l c c', s.candle_data = l ++ [c] →
      (Fixed.checkEntrySignal { s with candle_data := l ++ [c'] } now).2 =
        (Fixed.checkEntrySignal s now).2) := by
  constructor
  · intro h
    unfold Fixed.checkEntrySignal
    rw [if_pos h]
  · intro l c c' hdata
    have hlen : (l ++ [c']).length = (l ++ [c]).length := by simp
    unfold Fixed.checkEntrySignal
    dsimp only
    rw [hdata]
    by_cases h3 : (l ++ [c]).length < 3
    · rw [if_pos h3, if_pos (hlen ▸ h3)]
    · rw [if_neg h3, if_neg (hlen ▸ h3)]
      simp only [List.reverse_append, List.reverse_singleton,
        List.singleton_append]
      rcases hrev : l.reverse with _ | ⟨a, _ | ⟨b, rest⟩⟩ <;> dsimp only
      all_goals split_ifs <;>
        first
          | rfl
          | exact Fixed.generateSignal_snd_candles s (l ++ [c']) a now

/-- C1 witness: with two stored candles the fixed evaluator is a no-op,
and on a three-candle entry pattern the emitted signal is unchanged
when the trailing forming candle is replaced by a red candle. -/
theorem c1_witness :
    shortCandleState.candle_data.length < 3 ∧
    Fixed.checkEntrySignal shortCandleState (tsAt 9 51 0) =
      (shortCandleState, none) ∧
    (Fixed.checkEntrySignal entryPatternStateRed (tsAt 9 51 0)).2 =
      (Fixed.checkEntrySignal entryPatternState (tsAt 9 51 0)).2 ∧
    (Fixed.checkEntrySignal entryPatternState (tsAt 9 51 0)).2.isSome = true := by
  refine ⟨by decide,
    (c1_entry_uses_completed_candles shortCandleState (tsAt 9 51 0)).1
      (by decide), ?_, by decide⟩
  exact (c1_entry_uses_completed_candles entryPatternState (tsAt 9 51 0)).2
    [gcand1, gcand2] formingCand redCand rfl

/-- C1 counterexample: the optimized variant's entry-signal evaluator
(also cited by the claim) emits a signal from a retest-confirmed state
holding only 2 candles, and the emission depends on the still-forming
trailing candle: flattening only that candle suppresses the signal. -/
theorem c1_counterexample :
    c1state.retest_confirmed = true ∧
    c1state.candle_data.length = 2 ∧
    (Optimized.checkEntrySignal c1state (tsAt 9 48 30)).2.isSome = true ∧
    (Optimized.executeStrategy c1state (tsAt 9 48 30) (tsAt 9 48 30)).2.isSome
      = true ∧
    c1stateFlat.candle_data.dropLast = c1state.candle_data.dropLast ∧
    c1stateFlat.retest_confirmed = true ∧
    (Optimized.checkEntrySignal c1stateFlat (tsAt 9 48 30)).2 = none := by
  decide

end TradeOne

namespace TradeOne

/-- `_print_15min_levels_at_931` only ever sets its printed flag. -/
theorem Fixed.print931_shape (s : Fixed.State) (ts : Ts) :
    Fixed.print15minLevelsAt931 s ts = s ∨
    Fixed.print15minLevelsAt931 s ts = { s with first_15_printed := true } := by
  unfold Fixed.print15minLevelsAt931
  split_ifs
  · right; rfl
  · left; rfl

/-- `_print_15min_levels_at_931` does not change the strategy phase. -/
theorem Fixed.print931_phase (s : Fixed.State) (ts : Ts) :
    Fixed.getCurrentPhase (Fixed.print15minLevelsAt931 s ts) =
      Fixed.getCurrentPhase s := by
  rcases Fixed.print931_shape s ts with h | h <;> rw [h] <;> rfl

/-- `_update_candle` of the fixed variant only changes the candle list
and the frozen-once 5/15-minute level fields. -/
theorem Fixed.updateCandle_frame (s : Fixed.State) (p : ℚ) (ts : Ts) :
    (Fixed.updateCandle s p ts).first15_high = s.first15_high ∧
    (Fixed.updateCandle s p ts).first15_low = s.first15_low ∧
    (Fixed.updateCandle s p ts).first15_done = s.first15_done ∧
    (Fixed.updateCandle s p ts).context_set = s.context_set ∧
    (Fixed.updateCandle s p ts).breakout = s.breakout ∧
    (Fixed.updateCandle s p ts).breakout_price = s.breakout_price ∧
    (Fixed.updateCandle s p ts).breakout_time = s.breakout_time ∧
    (Fixed.updateCandle s p ts).retest_touch_occurred =
      s.retest_touch_occurred ∧
    (Fixed.updateCandle s p ts).retest_confirmed = s.retest_confirmed ∧
    (Fixed.updateCandle s p ts).retest_time = s.retest_time ∧
    (Fixed.updateCandle s p ts).current_price = s.current_price ∧
    (Fixed.updateCandle s p ts).tick_count = s.tick_count ∧
    (Fixed.updateCandle s p ts).last_signal_time = s.last_signal_time ∧
    (Fixed.updateCandle s p ts).signal_cooldown_period =
      s.signal_cooldown_period ∧
    (Fixed.updateCandle s p ts).first_15_printed = s.first_15_printed ∧
    (Fixed.updateCandle s p ts).candle_data =
      updateCandleList s.candle_data p ts := by
  unfold Fixed.updateCandle
  dsimp only
  split_ifs <;> and_intros <;> rfl

end TradeOne

namespace TradeOne

/-- Projections through `_print_15min_levels_at_931`. -/
theorem Fixed.print931_breakout (s : Fixed.State) (ts : Ts) :
    (Fixed.print15minLevelsAt931 s ts).breakout = s.breakout := by
  rcases Fixed.print931_shape s ts with h | h <;> rw [h]

/-- Projections through `_print_15min_levels_at_931`. -/
theorem Fixed.print931_breakout_price (s : Fixed.State) (ts : Ts) :
    (Fixed.print15minLevelsAt931 s ts).breakout_price = s.breakout_price := by
  rcases Fixed.print931_shape s ts with h | h <;> rw [h]

/-- Projections through `_print_15min_levels_at_931`. -/
theorem Fixed.print931_breakout_time (s : Fixed.State) (ts : Ts) :
    (Fixed.print15minLevelsAt931 s ts).breakout_time = s.breakout_time := by
  rcases Fixed.print931_shape s ts with h | h <;> rw [h]

/-- Projections through `_print_15min_levels_at_931`. -/
theorem Fixed.print931_retest_touch (s : Fixed.State) (ts : Ts) :
    (Fixed.print15minLevelsAt931 s ts).retest_touch_occurred =
      s.retest_touch_occurred := by
  rcases Fixed.print931_shape s ts with h | h <;> rw [h]

/-- Projections through `_print_15min_levels_at_931`. -/
theorem Fixed.print931_retest_confirmed (s : Fixed.State) (ts : Ts) :
    (Fixed.print15minLevelsAt931 s ts).retest_confirmed =
      s.retest_confirmed := by
  rcases Fixed.print931_shape s ts with h | h <;> rw [h]

/-- Projections through `_print_15min_levels_at_931`. -/
theorem Fixed.print931_retest_time (s : Fixed.State) (ts : Ts) :
    (Fixed.print15minLevelsAt931 s ts).retest_time = s.retest_time := by
  rcases Fixed.print931_shape s ts with h | h <;> rw [h]

/-- Projections through `_print_15min_levels_at_931`. -/
theorem Fixed.print931_first15_done (s : Fixed.State) (ts : Ts) :
    (Fixed.print15minLevelsAt931 s ts).first15_done = s.first15_done := by
  rcases Fixed.print931_shape s ts with h | h <;> rw [h]

/-- Projections through `_print_15min_levels_at_931`. -/
theorem Fixed.print931_first15_high (s : Fixed.State) (ts : Ts) :
    (Fixed.print15minLevelsAt931 s ts).first15_high = s.first15_high := by
  rcases Fixed.print931_shape s ts with h | h <;> rw [h]

/-- Projections through `_print_15min_levels_at_931`. -/
theorem Fixed.print931_first15_low (s : Fixed.State) (ts : Ts) :
    (Fixed.print15minLevelsAt931 s ts).first15_low = s.first15_low := by
  rcases Fixed.print931_shape s ts with h | h <;> rw [h]

/-- Projections through `_print_15min_levels_at_931`. -/
theorem Fixed.print931_candle_data (s : Fixed.State) (ts : Ts) :
    (Fixed.print15minLevelsAt931 s ts).candle_data = s.candle_data := by
  rcases Fixed.print931_shape s ts with h | h <;> rw [h]

/-- Projections through `_print_15min_levels_at_931`. -/
theorem Fixed.print931_last_signal_time (s : Fixed.State) (ts : Ts) :
    (Fixed.print15minLevelsAt931 s ts).last_signal_time =
      s.last_signal_time := by
  rcases Fixed.print931_shape s ts with h | h <;> rw [h]

/-- Projections through `_print_15min_levels_at_931`. -/
theorem Fixed.print931_cooldown (s : Fixed.State) (ts : Ts) :
    (Fixed.print15minLevelsAt931 s ts).signal_cooldown_period =
      s.signal_cooldown_period := by
  rcases Fixed.print931_shape s ts with h | h <;> rw [h]

/-- C8: starting from a seeded historical opening range (positive high),
when the very first live tick's price is strictly beyond the seeded
range the engine records the breakout direction, price and time on that
first tick and is immediately in the awaiting-retest phase (touch still
unrecorded), not in the watching-for-breakout phase. -/
theorem c8_seeded_immediate_breakout (h5 l5 h15 l15 p : ℚ) (ts : Ts)
    (hpos : 0 < h15) :
    (h15 < p →
      ((Fixed.processTick (Fixed.seededInit h5 l5 h15 l15) p ts ts).1.breakout
         = some Direction.BUY ∧
       (Fixed.processTick (Fixed.seededInit h5 l5 h15 l15) p ts
         ts).1.breakout_price = p ∧
       (Fixed.processTick (Fixed.seededInit h5 l5 h15 l15) p ts
         ts).1.breakout_time = some ts ∧
       (Fixed.processTick (Fixed.seededInit h5 l5 h15 l15) p ts
         ts).1.retest_touch_occurred = false ∧
       Fixed.getCurrentPhase
         (Fixed.processTick (Fixed.seededInit h5 l5 h15 l15) p ts ts).1 =
         Fixed.Phase.waitingForRetest)) ∧
    (p < l15 → ¬ h15 < p →
      ((Fixed.processTick (Fixed.seededInit h5 l5 h15 l15) p ts ts).1.breakout
         = some Direction.SELL ∧
       (Fixed.processTick (Fixed.seededInit h5 l5 h15 l15) p ts
         ts).1.breakout_price = p ∧
       (Fixed.processTick (Fixed.seededInit h5 l5 h15 l15) p ts
         ts).1.breakout_time = some ts ∧
       (Fixed.processTick (Fixed.seededInit h5 l5 h15 l15) p ts
         ts).1.retest_touch_occurred = false ∧
       Fixed.getCurrentPhase
         (Fixed.processTick (Fixed.seededInit h5 l5 h15 l15) p ts ts).1 =
         Fixed.Phase.waitingForRetest)) := by
  constructor
  · intro h
    simp only [Fixed.processTick, Fixed.seededInit, Fixed.initState,
      Fixed.setInitialContext, Fixed.print931_phase]
    simp only [Fixed.updateCandle, updateCandleList, newCandle,
      Fixed.executeStrategy, Fixed.trackFirst15, Fixed.detectBreakout,
      Fixed.confirmRetest, Fixed.getCurrentPhase, h, hpos, h.not_le]
    simp [h, hpos, h.not_le, Fixed.print931_breakout,
      Fixed.print931_breakout_price, Fixed.print931_breakout_time,
      Fixed.print931_retest_touch]
  · intro h hnb
    simp only [Fixed.processTick, Fixed.seededInit, Fixed.initState,
      Fixed.setInitialContext, Fixed.print931_phase]
    simp only [Fixed.updateCandle, updateCandleList, newCandle,
      Fixed.executeStrategy, Fixed.trackFirst15, Fixed.detectBreakout,
      Fixed.confirmRetest, Fixed.getCurrentPhase, h, hnb, hpos, h.not_le]
    simp [h, hnb, hpos, h.not_le, Fixed.print931_breakout,
      Fixed.print931_breakout_price, Fixed.print931_breakout_time,
      Fixed.print931_retest_touch]

end TradeOne

namespace TradeOne

/-- C8 witness: seeded range high 50100 / low 50000, first live tick at
price 50200: breakout BUY at 50200 recorded on the first tick and the
engine is awaiting the retest touch. -/
theorem c8_witness :
    (Fixed.processTick (Fixed.seededInit 50100 50000 50100 50000) 50200
       (tsAt 9 40 0) (tsAt 9 40 0)).1.breakout = some Direction.BUY ∧
    (Fixed.processTick (Fixed.seededInit 50100 50000 50100 50000) 50200
       (tsAt 9 40 0) (tsAt 9 40 0)).1.breakout_price = 50200 ∧
    (Fixed.processTick (Fixed.seededInit 50100 50000 50100 50000) 50200
       (tsAt 9 40 0) (tsAt 9 40 0)).1.breakout_time = some (tsAt 9 40 0) ∧
    (Fixed.processTick (Fixed.seededInit 50100 50000 50100 50000) 50200
       (tsAt 9 40 0) (tsAt 9 40 0)).1.retest_touch_occurred = false ∧
    Fixed.getCurrentPhase
      (Fixed.processTick (Fixed.seededInit 50100 50000 50100 50000) 50200
        (tsAt 9 40 0) (tsAt 9 40 0)).1 = Fixed.Phase.waitingForRetest := by
  exact (c8_seeded_immediate_breakout 50100 50000 50100 50000 50200
    (tsAt 9 40 0) (by decide)).1 (by decide)

end TradeOne

namespace TradeOne

/-- `_set_initial_context` (fixed variant) never changes the captured
15-minute range or its done flag. -/
theorem Fixed.setInitialContext_first15 (s : Fixed.State) (p : ℚ) (ts : Ts) :
    (Fixed.setInitialContext s p ts).first15_done = s.first15_done ∧
    (Fixed.setInitialContext s p ts).first15_high = s.first15_high ∧
    (Fixed.setInitialContext s p ts).first15_low = s.first15_low := by
  unfold Fixed.setInitialContext
  dsimp only
  split_ifs <;> and_intros <;> rfl

/-- `_detect_breakout` is the identity or sets only the breakout
fields. -/
theorem Fixed.detectBreakout_shape (s : Fixed.State) (now : Ts) :
    Fixed.detectBreakout s now = s ∨
    Fixed.detectBreakout s now =
      { s with breakout := some Direction.BUY,
               breakout_price := s.current_price,
               breakout_time := some now } ∨
    Fixed.detectBreakout s now =
      { s with breakout := some Direction.SELL,
               breakout_price := s.current_price,
               breakout_time := some now } := by
  unfold Fixed.detectBreakout
  split_ifs <;> simp

/-- `_confirm_retest` (fixed variant) is the identity, records only the
touch, or records only the confirmation. -/
theorem Fixed.confirmRetest_shape (s : Fixed.State) (now : Ts) :
    Fixed.confirmRetest s now = s ∨
    Fixed.confirmRetest s now = { s with retest_touch_occurred := true } ∨
    Fixed.confirmRetest s now =
      { s with retest_confirmed := true, retest_time := some now } := by
  unfold Fixed.confirmRetest
  cases s.candle_data.getLast? with
  | none => left; rfl
  | some c =>
      dsimp only
      split_ifs <;> simp

/-- The state returned by `_generate_signal` (fixed variant) is the
input state, possibly with `last_signal_time` stamped. -/
theorem Fixed.generateSignal_fst_shape (s : Fixed.State) (c : Candle)
    (now : Ts) :
    (Fixed.generateSignal s c now).1 = s ∨
    (Fixed.generateSignal s c now).1 =
      { s with last_signal_time := some now } := by
  unfold Fixed.generateSignal
  dsimp only
  cases s.last_signal_time with
  | none => right; rfl
  | some t =>
      dsimp only
      split_ifs <;> simp

/-- Resetting after `_generate_signal` yields the strategy reset of the
input state, with `last_signal_time` possibly stamped. -/
theorem Fixed.reset_generate_shape (s : Fixed.State) (c : Candle) (now : Ts) :
    Fixed.resetStrategy (Fixed.generateSignal s c now).1 =
      Fixed.resetStrategy s ∨
    Fixed.resetStrategy (Fixed.generateSignal s c now).1 =
      Fixed.resetStrategy { s with last_signal_time := some now } := by
  rcases Fixed.generateSignal_fst_shape s c now with h | h <;> rw [h] <;> simp

/-- The state returned by `_check_entry_signal` (fixed variant) is the
input state or the strategy reset of it (with `last_signal_time`
possibly stamped). -/
theorem Fixed.checkEntrySignal_fst_shape (s : Fixed.State) (now : Ts) :
    (Fixed.checkEntrySignal s now).1 = s ∨
    (Fixed.checkEntrySignal s now).1 = Fixed.resetStrategy s ∨
    (Fixed.checkEntrySignal s now).1 =
      Fixed.resetStrategy { s with last_signal_time := some now } := by
  unfold Fixed.checkEntrySignal
  split
  · left; rfl
  · split
    · split_ifs
      all_goals try (left; rfl)
      all_goals exact Or.inr (Fixed.reset_generate_shape s _ now)
    · left; rfl

/-- `_check_entry_signal` (fixed variant) preserves the captured range,
the candle list and the configuration fields. -/
theorem Fixed.checkEntrySignal_fields (s : Fixed.State) (now : Ts) :
    (Fixed.checkEntrySignal s now).1.first15_high = s.first15_high ∧
    (Fixed.checkEntrySignal s now).1.first15_low = s.first15_low ∧
    (Fixed.checkEntrySignal s now).1.first15_done = s.first15_done ∧
    (Fixed.checkEntrySignal s now).1.context_set = s.context_set ∧
    (Fixed.checkEntrySignal s now).1.candle_data = s.candle_data ∧
    (Fixed.checkEntrySignal s now).1.signal_cooldown_period =
      s.signal_cooldown_period ∧
    (Fixed.checkEntrySignal s now).1.first_15_printed = s.first_15_printed := by
  rcases Fixed.checkEntrySignal_fst_shape s now with h | h | h <;> rw [h] <;>
    simp [Fixed.resetStrategy]

/-- With the range captured, one fixed-variant `_process_tick` keeps it
captured and does not change the range bounds. -/
theorem Fixed.processTick_first15_frozen (s : Fixed.State) (p : ℚ)
    (ts now : Ts) (h : s.first15_done = true) :
    (Fixed.processTick s p ts now).1.first15_done = true ∧
    (Fixed.processTick s p ts now).1.first15_high = s.first15_high ∧
    (Fixed.processTick s p ts now).1.first15_low = s.first15_low := by
  have hexec : ∀ s2 : Fixed.State, s2.first15_done = true →
      ((Fixed.executeStrategy s2 ts now).1.first15_done = true ∧
       (Fixed.executeStrategy s2 ts now).1.first15_high = s2.first15_high ∧
       (Fixed.executeStrategy s2 ts now).1.first15_low = s2.first15_low) := by
    intro s2 h2
    unfold Fixed.executeStrategy
    rw [if_neg (by simp [h2])]
    split_ifs
    all_goals try (obtain ⟨g1, g2, g3, g4⟩ := Fixed.checkEntrySignal_fields s2 now; exact ⟨g3.trans h2, g1, g2⟩)
    all_goals try (rcases Fixed.detectBreakout_shape s2 now with hd | hd | hd <;> rw [hd] <;> simp [h2])
    all_goals rcases Fixed.confirmRetest_shape s2 now with hd | hd | hd <;> rw [hd] <;> simp [h2]
  have hstep : ∀ s2 : Fixed.State, s2.first15_done = true →
      ((Fixed.print15minLevelsAt931
          (Fixed.executeStrategy (Fixed.updateCandle s2 p ts) ts now).1
          ts).first15_done = true ∧
       (Fixed.print15minLevelsAt931
          (Fixed.executeStrategy (Fixed.updateCandle s2 p ts) ts now).1
          ts).first15_high = s2.first15_high ∧
       (Fixed.print15minLevelsAt931
          (Fixed.executeStrategy (Fixed.updateCandle s2 p ts) ts now).1
          ts).first15_low = s2.first15_low) := by
    intro s2 h2
    obtain ⟨u1, u2, u3, _⟩ := Fixed.updateCandle_frame s2 p ts
    obtain ⟨e1, e2, e3⟩ := hexec (Fixed.updateCandle s2 p ts) (u3.trans h2)
    rw [Fixed.print931_first15_done, Fixed.print931_first15_high,
      Fixed.print931_first15_low]
    exact ⟨e1, e2.trans u1, e3.trans u2⟩
  unfold Fixed.processTick
  dsimp only
  split_ifs with hc
  · exact hstep _ h
  · obtain ⟨c1, c2, c3⟩ := Fixed.setInitialContext_first15
      { s with current_price := p, last_update := some ts,
               tick_count := s.tick_count + 1 } p ts
    obtain ⟨g1, g2, g3⟩ := hstep _ (c1.trans h)
    exact ⟨g1, g2.trans c2, g3.trans c3⟩

/-- C7: the opening-range captured flag of the fixed engine is
monotone: once `first15_done` is true it remains true after any single
tick and after any further tick sequence, and the captured
`first15_high` / `first15_low` never change from that point on. -/
theorem c7_first15_monotone_frozen :
    (∀ (s : Fixed.State) (p : ℚ) (ts now : Ts), s.first15_done = true →
      ((Fixed.processTick s p ts now).1.first15_done = true ∧
       (Fixed.processTick s p ts now).1.first15_high = s.first15_high ∧
       (Fixed.processTick s p ts now).1.first15_low = s.first15_low)) ∧
    (∀ (s : Fixed.State) (ticks : List Tick), s.first15_done = true →
      ((Fixed.runTicks s ticks).1.first15_done = true ∧
       (Fixed.runTicks s ticks).1.first15_high = s.first15_high ∧
       (Fixed.runTicks s ticks).1.first15_low = s.first15_low)) := by
  refine ⟨Fixed.processTick_first15_frozen, ?_⟩
  intro s ticks
  induction ticks generalizing s with
  | nil => intro h; exact ⟨h, rfl, rfl⟩
  | cons t rest ih =>
      intro h
      unfold Fixed.runTicks
      dsimp only
      obtain ⟨h1, h2, h3⟩ := Fixed.processTick_first15_frozen s t.price t.ts
        t.ts h
      obtain ⟨g1, g2, g3⟩ := ih _ h1
      exact ⟨g1, g2.trans h2, g3.trans h3⟩

/-- C7 witness: from a captured state with range (100, 90), running a
concrete tick sequence leaves the flag true and the bounds unchanged. -/
theorem c7_witness :
    entryPatternState.first15_done = true ∧
    (Fixed.runTicks entryPatternState c2wTicks).1.first15_done = true ∧
    (Fixed.runTicks entryPatternState c2wTicks).1.first15_high =
      ((100 : ℚ) : WithTop ℚ) ∧
    (Fixed.runTicks entryPatternState c2wTicks).1.first15_low =
      ((90 : ℚ) : WithTop ℚ) := by
  have h := c7_first15_monotone_frozen.2 entryPatternState c2wTicks (by decide)
  exact ⟨by decide, h.1, h.2.1.trans (by decide), h.2.2.trans (by decide)⟩

end TradeOne

namespace TradeOne

/-- `_detect_breakout` of the optimized variant never changes the
range, the context flag or the candle list. -/
theorem Optimized.detectBreakout_fields (s : Optimized.State) (now : Ts) :
    (Optimized.detectBreakout s now).first15_high = s.first15_high ∧
    (Optimized.detectBreakout s now).first15_low = s.first15_low ∧
    (Optimized.detectBreakout s now).first15_done = s.first15_done ∧
    (Optimized.detectBreakout s now).context_set = s.context_set ∧
    (Optimized.detectBreakout s now).candle_data = s.candle_data := by
  unfold Optimized.detectBreakout
  split_ifs
  · and_intros <;> rfl
  · cases s.candle_data.getLast? <;> dsimp only
    · and_intros <;> rfl
    · split_ifs <;> and_intros <;> rfl

/-- `_confirm_retest` (optimized variant) is the identity, records only
the touch, or records only the confirmation. -/
theorem Optimized.confirmRetest_shape_opt (s : Optimized.State) (now : Ts) :
    Optimized.confirmRetest s now = s ∨
    Optimized.confirmRetest s now = { s with retest_touch_occurred := true } ∨
    Optimized.confirmRetest s now =
      { s with retest_confirmed := true, retest_time := some now } := by
  unfold Optimized.confirmRetest
  cases s.candle_data.getLast? with
  | none => left; rfl
  | some c =>
      dsimp only
      split_ifs <;> simp

/-- The state returned by `_check_entry_signal` (optimized variant) is
the input state or the strategy reset of it. -/
theorem Optimized.checkEntrySignal_fst_shape_opt (s : Optimized.State) (now : Ts) :
    (Optimized.checkEntrySignal s now).1 = s ∨
    (Optimized.checkEntrySignal s now).1 = Optimized.resetStrategy s := by
  unfold Optimized.checkEntrySignal
  split
  · left; rfl
  · split
    · split_ifs
      all_goals try (left; rfl)
      all_goals right; rfl
    · left; rfl

/-- Once the optimized engine's context is set and its range marked
done, one `_process_tick` keeps both flags and leaves the degenerate
range bounds unchanged. -/
theorem Optimized.processTick_context_preserved (s : Optimized.State)
    (p : ℚ) (ts now : Ts) (hc : s.context_set = true)
    (hd : s.first15_done = true) :
    (Optimized.processTick s p ts now).1.first15_done = true ∧
    (Optimized.processTick s p ts now).1.context_set = true ∧
    (Optimized.processTick s p ts now).1.first15_high = s.first15_high ∧
    (Optimized.processTick s p ts now).1.first15_low = s.first15_low := by
  unfold Optimized.processTick
  dsimp only
  rw [if_neg (by simp [hc])]
  unfold Optimized.updateCandle
  dsimp only
  unfold Optimized.executeStrategy
  rw [if_neg (by simp [hd])]
  split_ifs
  all_goals try (obtain ⟨d1, d2, d3, d4, d5⟩ := Optimized.detectBreakout_fields { s with current_price := p, last_update := some ts, tick_count := s.tick_count + 1, candle_data := updateCandleList s.candle_data p ts } now; exact ⟨d3.trans hd, d4.trans hc, d1, d2⟩)
  all_goals try (rcases Optimized.confirmRetest_shape_opt { s with current_price := p, last_update := some ts, tick_count := s.tick_count + 1, candle_data := updateCandleList s.candle_data p ts } now with hr | hr | hr <;> rw [hr] <;> exact ⟨hd, hc, rfl, rfl⟩)
  all_goals rcases Optimized.checkEntrySignal_fst_shape_opt { s with current_price := p, last_update := some ts, tick_count := s.tick_count + 1, candle_data := updateCandleList s.candle_data p ts } now with hr | hr <;> rw [hr] <;> simp [Optimized.resetStrategy, hd, hc]

/-- The very first tick of the optimized engine sets both range bounds
to the tick price and marks the range done. -/
theorem Optimized.firstTick_sets_range (p : ℚ) (ts : Ts) :
    (Optimized.processTick Optimized.initState p ts ts).1.first15_done
      = true ∧
    (Optimized.processTick Optimized.initState p ts ts).1.context_set
      = true ∧
    (Optimized.processTick Optimized.initState p ts ts).1.first15_high
      = ((p : ℚ) : WithTop ℚ) ∧
    (Optimized.processTick Optimized.initState p ts ts).1.first15_low
      = ((p : ℚ) : WithTop ℚ) := by
  simp only [Optimized.processTick, Optimized.initState,
    Optimized.setInitialContext, Optimized.updateCandle, updateCandleList,
    newCandle, Optimized.executeStrategy, Optimized.trackFirst15,
    Optimized.detectBreakout, Optimized.confirmRetest,
    Optimized.checkEntrySignal]
  simp

/-- C10: in the optimized engine variant, processing the very first
tick of a session (at any time of day, any price) sets the opening
range to the degenerate single-price interval at that tick's price and
immediately marks the range as done; the 09:15-09:30 capture window
accumulation therefore never runs, and the range stays this degenerate
interval for the entire remaining tick sequence. -/
theorem c10_optimized_degenerate_range (p : ℚ) (ts : Ts) (rest : List Tick) :
    ((Optimized.processTick Optimized.initState p ts ts).1.first15_done
       = true ∧
     (Optimized.processTick Optimized.initState p ts ts).1.first15_high
       = ((p : ℚ) : WithTop ℚ) ∧
     (Optimized.processTick Optimized.initState p ts ts).1.first15_low
       = ((p : ℚ) : WithTop ℚ)) ∧
    ((Optimized.runTicks Optimized.initState
        ({ price := p, ts := ts } :: rest)).1.first15_done = true ∧
     (Optimized.runTicks Optimized.initState
        ({ price := p, ts := ts } :: rest)).1.first15_high
       = ((p : ℚ) : WithTop ℚ) ∧
     (Optimized.runTicks Optimized.initState
        ({ price := p, ts := ts } :: rest)).1.first15_low
       = ((p : ℚ) : WithTop ℚ)) := by
  have h1 := Optimized.firstTick_sets_range p ts
  refine ⟨⟨h1.1, h1.2.2.1, h1.2.2.2⟩, ?_⟩
  have hrun : ∀ (l : List Tick) (s : Optimized.State),
      s.context_set = true → s.first15_done = true →
      ((Optimized.runTicks s l).1.first15_done = true ∧
       (Optimized.runTicks s l).1.context_set = true ∧
       (Optimized.runTicks s l).1.first15_high = s.first15_high ∧
       (Optimized.runTicks s l).1.first15_low = s.first15_low) := by
    intro l
    induction l with
    | nil => intro s hc hd; exact ⟨hd, hc, rfl, rfl⟩
    | cons t r ih =>
        intro s hc hd
        unfold Optimized.runTicks
        dsimp only
        obtain ⟨a1, a2, a3, a4⟩ := Optimized.processTick_context_preserved s
          t.price t.ts t.ts hc hd
        obtain ⟨b1, b2, b3, b4⟩ := ih _ a2 a1
        exact ⟨b1, b2, b3.trans a3, b4.trans a4⟩
  unfold Optimized.runTicks
  dsimp only
  obtain ⟨b1, b2, b3, b4⟩ := hrun rest _ h1.2.1 h1.1
  exact ⟨b1, b3.trans h1.2.2.1, b4.trans h1.2.2.2⟩

end TradeOne

namespace TradeOne

/-- `_track_first_15min` is the identity, updates only the range
bounds, or sets only the done flag. -/
theorem Fixed.trackFirst15_shape (s : Fixed.State) (ts : Ts) :
    Fixed.trackFirst15 s ts = s ∨
    Fixed.trackFirst15 s ts =
      { s with first15_high := max s.first15_high (s.current_price : ℚ),
               first15_low := min s.first15_low (s.current_price : ℚ) } ∨
    Fixed.trackFirst15 s ts = { s with first15_done := true } := by
  unfold Fixed.trackFirst15
  split_ifs <;> simp

/-- `_set_initial_context` (fixed variant) does not touch the cooldown
bookkeeping. -/
theorem Fixed.setInitialContext_cooldown (s : Fixed.State) (p : ℚ) (ts : Ts) :
    (Fixed.setInitialContext s p ts).last_signal_time = s.last_signal_time ∧
    (Fixed.setInitialContext s p ts).signal_cooldown_period =
      s.signal_cooldown_period := by
  unfold Fixed.setInitialContext
  dsimp only
  split_ifs <;> exact ⟨rfl, rfl⟩

/-- `_execute_strategy` does not change the cooldown period. -/
theorem Fixed.executeStrategy_cooldown (s : Fixed.State) (ts now : Ts) :
    (Fixed.executeStrategy s ts now).1.signal_cooldown_period =
      s.signal_cooldown_period := by
  unfold Fixed.executeStrategy
  split_ifs
  all_goals try exact (Fixed.checkEntrySignal_fields s now).2.2.2.2.2.1
  all_goals try (rcases Fixed.trackFirst15_shape s ts with h | h | h <;> rw [h])
  all_goals try (rcases Fixed.detectBreakout_shape s now with h | h | h <;> rw [h])
  all_goals rcases Fixed.confirmRetest_shape s now with h | h | h <;> rw [h]

/-- `_process_tick` does not change the cooldown period. -/
theorem Fixed.processTick_cooldown (s : Fixed.State) (p : ℚ) (ts now : Ts) :
    (Fixed.processTick s p ts now).1.signal_cooldown_period =
      s.signal_cooldown_period := by
  unfold Fixed.processTick
  dsimp only
  split_ifs with hc
  all_goals rw [Fixed.print931_cooldown, Fixed.executeStrategy_cooldown,
    (Fixed.updateCandle_frame _ p ts).2.2.2.2.2.2.2.2.2.2.2.2.2.1]
  all_goals try rfl
  all_goals exact (Fixed.setInitialContext_cooldown _ p ts).2

/-- Emission cases of reset-after-`_generate_signal`: either nothing is
emitted and `last_signal_time` is untouched, or a signal stamped `now`
is emitted, `last_signal_time` becomes `now`, and any previous
`last_signal_time` was at least the cooldown period ago. -/
theorem Fixed.reset_generate_signal_cases (s : Fixed.State) (c : Candle)
    (now : Ts) :
    (((Fixed.resetStrategy (Fixed.generateSignal s c now).1,
       (Fixed.generateSignal s c now).2) : Fixed.State × Option Signal).2
        = none ∧
     (Fixed.resetStrategy
        (Fixed.generateSignal s c now).1).last_signal_time =
       s.last_signal_time) ∨
    (∃ sg, (Fixed.generateSignal s c now).2 = some sg ∧ sg.time = now ∧
      (Fixed.resetStrategy
        (Fixed.generateSignal s c now).1).last_signal_time = some now ∧
      ∀ t, s.last_signal_time = some t →
        s.signal_cooldown_period ≤ tdSeconds now t) := by
  unfold Fixed.generateSignal
  dsimp only
  cases hls : s.last_signal_time with
  | none =>
      right
      exact ⟨_, rfl, rfl, rfl, fun t ht => Option.noConfusion ht⟩
  | some t =>
      dsimp only
      by_cases hcool : tdSeconds now t < s.signal_cooldown_period
      · rw [if_pos hcool]
        left
        exact ⟨rfl, hls⟩
      · rw [if_neg hcool]
        right
        refine ⟨_, rfl, rfl, rfl, ?_⟩
        intro t2 ht2
        have ht : t2 = t := ((Option.some.injEq _ _).mp ht2).symm
        rw [ht]
        exact not_lt.mp hcool

/-- Emission cases of `_check_entry_signal` (fixed variant). -/
theorem Fixed.checkEntrySignal_signal_cases (s : Fixed.State) (now : Ts) :
    ((Fixed.checkEntrySignal s now).2 = none ∧
     (Fixed.checkEntrySignal s now).1.last_signal_time =
       s.last_signal_time) ∨
    (∃ sg, (Fixed.checkEntrySignal s now).2 = some sg ∧ sg.time = now ∧
      (Fixed.checkEntrySignal s now).1.last_signal_time = some now ∧
      ∀ t, s.last_signal_time = some t →
        s.signal_cooldown_period ≤ tdSeconds now t) := by
  unfold Fixed.checkEntrySignal
  split
  · left; exact ⟨rfl, rfl⟩
  · split
    · split_ifs
      all_goals try (left; exact ⟨rfl, rfl⟩)
      all_goals exact Fixed.reset_generate_signal_cases s _ now
    · left; exact ⟨rfl, rfl⟩

/-- Emission cases of `_execute_strategy` (fixed variant). -/
theorem Fixed.executeStrategy_signal_cases (s : Fixed.State) (ts now : Ts) :
    ((Fixed.executeStrategy s ts now).2 = none ∧
     (Fixed.executeStrategy s ts now).1.last_signal_time =
       s.last_signal_time) ∨
    (∃ sg, (Fixed.executeStrategy s ts now).2 = some sg ∧ sg.time = now ∧
      (Fixed.executeStrategy s ts now).1.last_signal_time = some now ∧
      ∀ t, s.last_signal_time = some t →
        s.signal_cooldown_period ≤ tdSeconds now t) := by
  unfold Fixed.executeStrategy
  split_ifs
  all_goals try exact Fixed.checkEntrySignal_signal_cases s now
  all_goals try (left; refine ⟨rfl, ?_⟩; rcases Fixed.trackFirst15_shape s ts with h | h | h <;> rw [h])
  all_goals try (left; refine ⟨rfl, ?_⟩; rcases Fixed.detectBreakout_shape s now with h | h | h <;> rw [h])
  all_goals left; refine ⟨rfl, ?_⟩; rcases Fixed.confirmRetest_shape s now with h | h | h <;> rw [h]

/-- Emission cases of one full fixed-variant `_process_tick`. -/
theorem Fixed.processTick_signal_cases (s : Fixed.State) (p : ℚ)
    (ts now : Ts) :
    ((Fixed.processTick s p ts now).2 = none ∧
     (Fixed.processTick s p ts now).1.last_signal_time =
       s.last_signal_time) ∨
    (∃ sg, (Fixed.processTick s p ts now).2 = some sg ∧ sg.time = now ∧
      (Fixed.processTick s p ts now).1.last_signal_time = some now ∧
      ∀ t, s.last_signal_time = some t →
        s.signal_cooldown_period ≤ tdSeconds now t) := by
  have main : ∀ s2 : Fixed.State,
      s2.last_signal_time = s.last_signal_time →
      s2.signal_cooldown_period = s.signal_cooldown_period →
      (((Fixed.executeStrategy (Fixed.updateCandle s2 p ts) ts now).2 = none ∧
        (Fixed.print15minLevelsAt931
          (Fixed.executeStrategy (Fixed.updateCandle s2 p ts) ts
            now).1 ts).last_signal_time = s.last_signal_time) ∨
       (∃ sg,
         (Fixed.executeStrategy (Fixed.updateCandle s2 p ts) ts now).2 =
           some sg ∧ sg.time = now ∧
         (Fixed.print15minLevelsAt931
           (Fixed.executeStrategy (Fixed.updateCandle s2 p ts) ts
             now).1 ts).last_signal_time = some now ∧
         ∀ t, s.last_signal_time = some t →
           s.signal_cooldown_period ≤ tdSeconds now t)) := by
    intro s2 hl hcp
    have hu :=
      (Fixed.updateCandle_frame s2 p ts).2.2.2.2.2.2.2.2.2.2.2.2.1
    have hcp2 :=
      (Fixed.updateCandle_frame s2 p ts).2.2.2.2.2.2.2.2.2.2.2.2.2.1
    rcases Fixed.executeStrategy_signal_cases (Fixed.updateCandle s2 p ts)
      ts now with ⟨h1, h2⟩ | ⟨sg, h1, h2, h3, h4⟩
    · left
      rw [Fixed.print931_last_signal_time]
      exact ⟨h1, h2.trans (hu.trans hl)⟩
    · right
      refine ⟨sg, h1, h2, ?_, ?_⟩
      · rw [Fixed.print931_last_signal_time]; exact h3
      · intro t ht
        have := h4 t ((hu.trans hl).trans ht ▸ rfl)
        rw [hcp2.trans hcp] at this
        exact this
  unfold Fixed.processTick
  dsimp only
  split_ifs with hc
  · exact main _ rfl rfl
  · obtain ⟨cl, cc⟩ := Fixed.setInitialContext_cooldown
      { s with current_price := p, last_update := some ts,
               tick_count := s.tick_count + 1 } p ts
    exact main _ cl cc

end TradeOne

namespace TradeOne

/-- Chain induction for C3: all consecutive signals emitted over a
fixed-engine run are at least the cooldown period apart, and the first
emitted signal respects the cooldown against any pre-existing
`last_signal_time`. -/
theorem Fixed.runTicks_cooldown_chain (ticks : List Tick) :
    ∀ (s : Fixed.State) (C : ℤ), s.signal_cooldown_period = C →
      (List.Chain' (fun a b => C ≤ tdSeconds b.time a.time)
        (Fixed.runTicks s ticks).2 ∧
       ∀ sg t, (Fixed.runTicks s ticks).2.head? = some sg →
         s.last_signal_time = some t → C ≤ tdSeconds sg.time t) := by
  induction ticks with
  | nil =>
      intro s C hC
      exact ⟨List.chain'_nil, fun sg t h => Option.noConfusion h⟩
  | cons t rest ih =>
      intro s C hC
      unfold Fixed.runTicks
      dsimp only
      have hCnext : (Fixed.processTick s t.price t.ts t.ts).1.signal_cooldown_period = C :=
        (Fixed.processTick_cooldown s t.price t.ts t.ts).trans hC
      obtain ⟨hchain, hhead⟩ := ih (Fixed.processTick s t.price t.ts t.ts).1 C hCnext
      rcases Fixed.processTick_signal_cases s t.price t.ts t.ts with
        ⟨h1, h2⟩ | ⟨sg, h1, h2, h3, h4⟩
      · rw [h1]
        refine ⟨hchain, ?_⟩
        intro sg t2 hh hl
        exact hhead sg t2 hh (h2.trans hl)
      · rw [h1]
        dsimp only [Option.toList, List.cons_append, List.nil_append]
        constructor
        · rw [List.chain'_cons']
          refine ⟨?_, hchain⟩
          intro y hy
          rw [h2]
          exact hhead y t.ts (Option.mem_def.mp hy) h3
        · intro sg2 t2 hh hl
          have hsg : sg2 = sg := by
            simp only [List.head?_cons] at hh
            exact (Option.some.injEq _ _ ▸ hh).symm
          rw [hsg, h2, ← hC]
          exact h4 t2 hl

end TradeOne

namespace TradeOne

/-- C3 (amended, fixed variant): over any tick sequence processed by
the fixed engine, any two consecutively emitted signals are at least
`signal_cooldown_period` seconds apart (as Python's
`timedelta.seconds` measures it); an entry pattern qualifying less
than the cooldown interval after an emission is therefore suppressed,
so two qualifying patterns within the interval emit exactly one
signal. -/
theorem c3_fixed_cooldown_spacing (s0 : Fixed.State) (ticks : List Tick) :
    List.Chain' (fun a b => s0.signal_cooldown_period ≤ tdSeconds b.time a.time)
      (Fixed.runTicks s0 ticks).2 :=
  (Fixed.runTicks_cooldown_chain ticks s0 s0.signal_cooldown_period rfl).1

/-- C3 counterexample: the optimized variant (also cited by the claim)
has no cooldown; this concrete 18-tick run drives it through two full
breakout/retest/entry cycles and emits two signals 290 seconds apart
(less than the default 300-second cooldown), not exactly one. -/
theorem c3_counterexample :
    (Optimized.runTicks Optimized.initState c3ticks).2.map Signal.time =
      [tsAt 9 48 30, tsAt 9 53 20] ∧
    (Optimized.runTicks Optimized.initState c3ticks).2.length = 2 ∧
    0 ≤ tdSeconds (tsAt 9 53 20) (tsAt 9 48 30) ∧
    tdSeconds (tsAt 9 53 20) (tsAt 9 48 30) < 300 := by
  exact ⟨by decide, by decide, by decide, by decide⟩

end TradeOne

namespace TradeOne

/-- On valid timestamps, `toSec` is injective. -/
theorem Ts.toSec_inj {a b : Ts} (ha : a.Valid) (hb : b.Valid)
    (h : a.toSec = b.toSec) : a = b := by
  obtain ⟨d1, h1, m1, s1⟩ := a
  obtain ⟨d2, h2, m2, s2⟩ := b
  simp only [Ts.Valid] at ha hb
  simp only [Ts.toSec] at h
  simp only [Ts.mk.injEq]
  omega

/-- Minute truncation of a valid timestamp is valid. -/
theorem Ts.truncMinute_valid {t : Ts} (ht : t.Valid) :
    t.truncMinute.Valid := by
  obtain ⟨d, h, m, s⟩ := t
  simp only [Ts.Valid, Ts.truncMinute] at *
  omega

/-- Minute truncation is monotone in `toSec` on valid timestamps. -/
theorem Ts.truncMinute_toSec_mono {a b : Ts} (ha : a.Valid) (hb : b.Valid)
    (h : a.toSec ≤ b.toSec) : a.truncMinute.toSec ≤ b.truncMinute.toSec := by
  obtain ⟨d1, h1, m1, s1⟩ := a
  obtain ⟨d2, h2, m2, s2⟩ := b
  simp only [Ts.Valid] at ha hb
  simp only [Ts.toSec, Ts.truncMinute] at *
  omega

/-- The candle list update keeps at most 60 candles. -/
theorem updateCandleList_length (data : List Candle) (p : ℚ) (ts : Ts)
    (h : data.length ≤ 60) : (updateCandleList data p ts).length ≤ 60 := by
  unfold updateCandleList
  cases hlast : data.getLast? with
  | none =>
      dsimp only
      split_ifs with h1
      · simp only [List.length_tail, List.length_append, List.length_singleton]
        omega
      · simp only [List.length_append, List.length_singleton] at h1 ⊢
        omega
  | some last =>
      have hne : data ≠ [] := by
        intro he
        rw [he] at hlast
        exact Option.noConfusion hlast
      have hpos : 0 < data.length := List.length_pos.mpr hne
      dsimp only
      split_ifs with h0 h1
      · simp only [List.length_tail, List.length_append, List.length_singleton]
        omega
      · simp only [List.length_append, List.length_singleton] at h1 ⊢
        omega
      · simp only [List.length_append, List.length_singleton,
          List.length_dropLast]
        omega

/-- The candle list update preserves the candle invariant, advancing
the bound to the tick's minute bucket. -/
theorem updateCandleList_inv (data : List Candle) (p : ℚ) (ts : Ts) (b : ℕ)
    (hts : ts.Valid) (hinv : CandleInv data b)
    (hb : b ≤ ts.truncMinute.toSec) :
    CandleInv (updateCandleList data p ts) ts.truncMinute.toSec := by
  obtain ⟨hlen, hsort, hmem⟩ := hinv
  have hmv : ts.truncMinute.Valid := Ts.truncMinute_valid hts
  unfold updateCandleList
  cases hlast : data.getLast? with
  | none =>
      have hdata : data = [] := List.getLast?_eq_none_iff.mp hlast
      subst hdata
      dsimp only
      rw [if_neg (by simp)]
      refine ⟨by simp, by simp, ?_⟩
      intro c hc
      simp only [List.nil_append, List.mem_singleton] at hc
      subst hc
      exact ⟨hmv, le_refl _⟩
  | some last =>
      have hdec : data.dropLast ++ [last] = data :=
        List.dropLast_append_getLast? last (Option.mem_def.mpr hlast)
      have hlastmem : last ∈ data := by
        rw [← hdec]; simp
      have hpair := hsort
      rw [← hdec, List.pairwise_append] at hpair
      obtain ⟨hp1, _, hp3⟩ := hpair
      dsimp only
      split_ifs with h0 h1
      · -- new bucket, eviction
        have hlt : ∀ c ∈ data, c.timestamp.toSec < ts.truncMinute.toSec := by
          intro c hc
          rw [← hdec] at hc
          rcases List.mem_append.mp hc with hc | hc
          · have h5 := hp3 c hc last (by simp)
            have h6 : last.timestamp.toSec ≤ ts.truncMinute.toSec :=
              le_trans (hmem last hlastmem).2 hb
            exact lt_of_lt_of_le h5 h6
          · simp only [List.mem_singleton] at hc
            subst hc
            have h6 : c.timestamp.toSec ≤ ts.truncMinute.toSec :=
              le_trans (hmem c hlastmem).2 hb
            rcases lt_or_eq_of_le h6 with h7 | h7
            · exact h7
            · exact absurd (Ts.toSec_inj (hmem c hlastmem).1 hmv h7) h0
        refine ⟨?_, ?_, ?_⟩
        · simp only [List.length_tail, List.length_append,
            List.length_singleton]
          omega
        · refine List.Pairwise.sublist (List.tail_sublist _) ?_
          rw [List.pairwise_append]
          refine ⟨hsort, by simp, ?_⟩
          intro x hx y hy
          simp only [List.mem_singleton] at hy
          subst hy
          simpa [newCandle] using hlt x hx
        · intro c hc
          have hc2 := List.mem_of_mem_tail hc
          rcases List.mem_append.mp hc2 with hc3 | hc3
          · exact ⟨(hmem c hc3).1, le_trans (hmem c hc3).2 hb⟩
          · simp only [List.mem_singleton] at hc3
            subst hc3
            exact ⟨hmv, le_refl _⟩
      · -- new bucket, no eviction
        have hlt : ∀ c ∈ data, c.timestamp.toSec < ts.truncMinute.toSec := by
          intro c hc
          rw [← hdec] at hc
          rcases List.mem_append.mp hc with hc | hc
          · have h5 := hp3 c hc last (by simp)
            have h6 : last.timestamp.toSec ≤ ts.truncMinute.toSec :=
              le_trans (hmem last hlastmem).2 hb
            exact lt_of_lt_of_le h5 h6
          · simp only [List.mem_singleton] at hc
            subst hc
            have h6 : c.timestamp.toSec ≤ ts.truncMinute.toSec :=
              le_trans (hmem c hlastmem).2 hb
            rcases lt_or_eq_of_le h6 with h7 | h7
            · exact h7
            · exact absurd (Ts.toSec_inj (hmem c hlastmem).1 hmv h7) h0
        refine ⟨?_, ?_, ?_⟩
        · simp only [List.length_append, List.length_singleton] at h1 ⊢
          omega
        · rw [List.pairwise_append]
          refine ⟨hsort, by simp, ?_⟩
          intro x hx y hy
          simp only [List.mem_singleton] at hy
          subst hy
          simpa [newCandle] using hlt x hx
        · intro c hc
          rcases List.mem_append.mp hc with hc3 | hc3
          · exact ⟨(hmem c hc3).1, le_trans (hmem c hc3).2 hb⟩
          · simp only [List.mem_singleton] at hc3
            subst hc3
            exact ⟨hmv, le_refl _⟩
      · -- same bucket: in-place refinement of the trailing candle
        refine ⟨?_, ?_, ?_⟩
        · have : data.length ≤ 60 := hlen
          have hne : data ≠ [] := by
            intro he
            rw [he] at hlast
            exact Option.noConfusion hlast
          have hpos : 0 < data.length := List.length_pos.mpr hne
          simp only [List.length_append, List.length_singleton,
            List.length_dropLast]
          omega
        · rw [List.pairwise_append]
          refine ⟨hp1, by simp, ?_⟩
          intro x hx y hy
          simp only [List.mem_singleton] at hy
          subst hy
          have := hp3 x hx last (by simp)
          simpa using this
        · intro c hc
          rcases List.mem_append.mp hc with hc3 | hc3
          · have := hmem c (List.dropLast_subset _ hc3)
            exact ⟨this.1, le_trans this.2 hb⟩
          · simp only [List.mem_singleton] at hc3
            subst hc3
            have := hmem last hlastmem
            exact ⟨this.1, le_trans this.2 hb⟩

end TradeOne

namespace TradeOne

/-- `_set_initial_context` (fixed variant) does not touch the candle
list. -/
theorem Fixed.setInitialContext_candle_data (s : Fixed.State) (p : ℚ)
    (ts : Ts) :
    (Fixed.setInitialContext s p ts).candle_data = s.candle_data := by
  unfold Fixed.setInitialContext
  dsimp only
  split_ifs <;> rfl

/-- `_execute_strategy` (fixed variant) does not touch the candle
list. -/
theorem Fixed.executeStrategy_candle_data (s : Fixed.State) (ts now : Ts) :
    (Fixed.executeStrategy s ts now).1.candle_data = s.candle_data := by
  unfold Fixed.executeStrategy
  split_ifs
  all_goals try exact (Fixed.checkEntrySignal_fields s now).2.2.2.2.1
  all_goals try (rcases Fixed.trackFirst15_shape s ts with h | h | h <;> rw [h])
  all_goals try (rcases Fixed.detectBreakout_shape s now with h | h | h <;> rw [h])
  all_goals rcases Fixed.confirmRetest_shape s now with h | h | h <;> rw [h]

/-- The candle list after one fixed-variant `_process_tick` is exactly
the `_update_candle` update of the previous list. -/
theorem Fixed.processTick_candle_data (s : Fixed.State) (p : ℚ)
    (ts now : Ts) :
    (Fixed.processTick s p ts now).1.candle_data =
      updateCandleList s.candle_data p ts := by
  unfold Fixed.processTick
  dsimp only
  split_ifs with hc
  all_goals rw [Fixed.print931_candle_data, Fixed.executeStrategy_candle_data,
    (Fixed.updateCandle_frame _ p ts).2.2.2.2.2.2.2.2.2.2.2.2.2.2.2]
  all_goals try rfl
  all_goals rw [Fixed.setInitialContext_candle_data]

/-- Bounded length of the fixed-engine candle list over any run. -/
theorem Fixed.runTicks_candle_len (ticks : List Tick) :
    ∀ s : Fixed.State, s.candle_data.length ≤ 60 →
      (Fixed.runTicks s ticks).1.candle_data.length ≤ 60 := by
  induction ticks with
  | nil => intro s h; exact h
  | cons t rest ih =>
      intro s h
      unfold Fixed.runTicks
      dsimp only
      refine ih _ ?_
      rw [Fixed.processTick_candle_data]
      exact updateCandleList_length s.candle_data t.price t.ts h

/-- The candle invariant is maintained over any fixed-engine run of
valid, time-ordered ticks. -/
theorem Fixed.runTicks_candle_inv (ticks : List Tick) :
    ∀ (s : Fixed.State) (b : ℕ), CandleInv s.candle_data b →
      (∀ t ∈ ticks, t.ts.Valid) →
      List.Chain' (fun a b2 => a.ts.toSec ≤ b2.ts.toSec) ticks →
      (∀ t2, ticks.head? = some t2 → b ≤ t2.ts.truncMinute.toSec) →
      ∃ b2, CandleInv (Fixed.runTicks s ticks).1.candle_data b2 := by
  induction ticks with
  | nil => intro s b hinv _ _ _; exact ⟨b, hinv⟩
  | cons t rest ih =>
      intro s b hinv hvalid hchain hhead
      unfold Fixed.runTicks
      dsimp only
      have htv : t.ts.Valid := hvalid t (by simp)
      have hb : b ≤ t.ts.truncMinute.toSec := hhead t rfl
      have hinv2 : CandleInv
          (Fixed.processTick s t.price t.ts t.ts).1.candle_data
          t.ts.truncMinute.toSec := by
        rw [Fixed.processTick_candle_data]
        exact updateCandleList_inv s.candle_data t.price t.ts b htv hinv hb
      obtain ⟨hrel, hrest⟩ := List.chain'_cons'.mp hchain
      refine ih _ _ hinv2 (fun x hx => hvalid x (List.mem_cons_of_mem _ hx))
        hrest ?_
      intro t2 ht2
      have ht2v : t2.ts.Valid :=
        hvalid t2 (List.mem_cons_of_mem _ (List.mem_of_mem_head? ht2))
      exact Ts.truncMinute_toSec_mono htv ht2v
        (hrel t2 (Option.mem_def.mpr ht2))

/-- C2 (amended): over every tick sequence the fixed engine's candle
list never exceeds 60 entries; and whenever the ticks carry valid
timestamps arriving in non-decreasing time order (duplicates allowed),
the list is strictly sorted by minute-bucket timestamp with no two
candles sharing a bucket. -/
theorem c2_candle_bound_and_order (ticks : List Tick) :
    (Fixed.runTicks Fixed.initState ticks).1.candle_data.length ≤ 60 ∧
    ((∀ t ∈ ticks, t.ts.Valid) →
     List.Chain' (fun a b => a.ts.toSec ≤ b.ts.toSec) ticks →
     (List.Pairwise (fun a b => a.timestamp.toSec < b.timestamp.toSec)
        (Fixed.runTicks Fixed.initState ticks).1.candle_data ∧
      List.Pairwise (fun a b => a.timestamp ≠ b.timestamp)
        (Fixed.runTicks Fixed.initState ticks).1.candle_data)) := by
  constructor
  · exact Fixed.runTicks_candle_len ticks Fixed.initState
      (by simp [Fixed.initState])
  · intro hv hc
    have hinv0 : CandleInv Fixed.initState.candle_data 0 := by
      refine ⟨by simp [Fixed.initState], by simp [Fixed.initState], ?_⟩
      intro c hcm
      simp [Fixed.initState] at hcm
    obtain ⟨b2, h1, h2, h3⟩ := Fixed.runTicks_candle_inv ticks
      Fixed.initState 0 hinv0 hv hc (fun t2 _ => Nat.zero_le _)
    refine ⟨h2, h2.imp ?_⟩
    intro a b hab heq
    rw [heq] at hab
    exact lt_irrefl _ hab

/-- C2 witness: a concrete in-order run stays within the bound and
strictly sorted. -/
theorem c2_witness :
    (Fixed.runTicks Fixed.initState c2wTicks).1.candle_data.length ≤ 60 ∧
    List.Pairwise (fun a b => a.timestamp.toSec < b.timestamp.toSec)
      (Fixed.runTicks Fixed.initState c2wTicks).1.candle_data ∧
    (∀ t ∈ c2wTicks, t.ts.Valid) := by
  have h := c2_candle_bound_and_order c2wTicks
  refine ⟨h.1, (h.2 (by decide) ?_).1, by decide⟩
  norm_num [c2wTicks, tsAt, List.chain'_cons, Ts.toSec]

/-- C2 counterexample: with out-of-order ticks (09:40, 09:39, 09:40)
the fixed engine's candle list is neither sorted by bucket nor free of
duplicate buckets, even though every timestamp is valid. -/
theorem c2_counterexample :
    (∀ t ∈ c2ticks, t.ts.Valid) ∧
    ((Fixed.runTicks Fixed.initState c2ticks).1.candle_data.map
      Candle.timestamp) = [tsAt 9 40 0, tsAt 9 39 0, tsAt 9 40 0] ∧
    ¬ List.Pairwise (fun a b => a.timestamp.toSec < b.timestamp.toSec)
      (Fixed.runTicks Fixed.initState c2ticks).1.candle_data ∧
    ¬ List.Pairwise (fun a b => a.timestamp ≠ b.timestamp)
      (Fixed.runTicks Fixed.initState c2ticks).1.candle_data := by
  exact ⟨by decide, by decide, by decide, by decide⟩

end TradeOne
